import Mathlib

/-!
Verification development for the loan-order chat bot
(`main.py`, `db_operations.py`, `init_db.py`).

The embedding models the order lifecycle state machine and the
triple-layer ledger (global `financial_data`, per-group `grouped_data`,
per-day `daily_data`).  Monetary values are modelled as rationals,
tables as total functions from field names to values (a zero-initialized
row is observationally the default value 0), and the set of rows of the
per-group table as the list of group ids that have been referenced.
Each ledger table carries the list of columns of its `init_db.py`
schema: an update to a field that is not a column of the table fails in
sqlite and leaves the value unchanged, which the update functions mirror
with a column-membership guard.
-/

namespace LoanBot

/-- Order lifecycle states (`orders.state` column: `normal`, `overdue`,
`breach`, `end`, `breach_end`). -/
inductive OrderState where
  | normal
  | overdue
  | breach
  | end_
  | breach_end
deriving DecidableEq

/-- Calendar date, used for the encoded order date and the historical
cutover threshold. -/
structure Date where
  year : Nat
  month : Nat
  day : Nat
deriving DecidableEq

/-- Gregorian leap-year rule, as used by Python `datetime.strptime`. -/
def isLeapYear (y : Nat) : Bool :=
  (y % 4 == 0 && y % 100 != 0) || (y % 400 == 0)

/-- Number of days of month `m` in year `y`. -/
def daysInMonth (y m : Nat) : Nat :=
  if m = 2 then (if isLeapYear y then 29 else 28)
  else if m = 4 ∨ m = 6 ∨ m = 9 ∨ m = 11 then 30
  else 31

/-- Whether `y`-`m`-`d` is a real calendar date (what
`datetime.strptime(s, "%Y%m%d")` accepts). -/
def validDate (y m d : Nat) : Bool :=
  decide (1 ≤ m) && decide (m ≤ 12) && decide (1 ≤ d) && decide (d ≤ daysInMonth y m)

/-- Strict calendar order on dates (`order_date < threshold_date`). -/
def dateLt (a b : Date) : Bool :=
  decide (a.year < b.year) ||
    (decide (a.year = b.year) &&
      (decide (a.month < b.month) ||
        (decide (a.month = b.month) && decide (a.day < b.day))))

/-- A row of the `orders` table (columns used by the core logic). -/
structure Order where
  order_id : String
  group_id : String
  chat_id : Int
  date : Date
  weekday_group : String
  customer : Char
  amount : ℚ
  state : OrderState
deriving DecidableEq

/-- Result of `parse_order_from_title` (`main.py`). -/
structure ParsedOrder where
  date : Date
  amount : ℚ
  order_id : String
  customer : Char
deriving DecidableEq

/-- Outcome of a handler: success or one of the rejection messages. -/
inductive Res where
  | ok
  | errNoOrder
  | errWrongState
  | errInvalidAmount
  | errInsufficientFunds
  | errDbError
  | errDuplicateOrder
  | errNoParse
  | errAlreadyExists
deriving DecidableEq

/-- Numeric value of an ASCII digit character (Python `int` on a digit). -/
def digitVal (c : Char) : Nat := c.toNat - 48

/-- The `\d{10}` part of the title regexes: the first ten characters,
provided there are at least ten and they are all digits. -/
def parse10 (cs : List Char) : Option (List Char) :=
  match cs with
  | c1 :: c2 :: c3 :: c4 :: c5 :: c6 :: c7 :: c8 :: c9 :: c10 :: _ =>
    if (c1.isDigit && c2.isDigit && c3.isDigit && c4.isDigit && c5.isDigit &&
        c6.isDigit && c7.isDigit && c8.isDigit && c9.isDigit && c10.isDigit) then
      some [c1, c2, c3, c4, c5, c6, c7, c8, c9, c10]
    else none
  | _ => none

/-- Decode the ten digits `YYMMDDSSAA`: date `2000+YY`-`MM`-`DD`
(rejected like `strptime` when not a real calendar date), sequence `SS`
unused, amount `AA * 1000`. -/
def parse_digits (ds : List Char) (order_id : String) (customer : Char) :
    Option ParsedOrder :=
  match ds with
  | [y1, y2, m1, m2, d1, d2, _, _, a1, a2] =>
    let yy := 10 * digitVal y1 + digitVal y2
    let mm := 10 * digitVal m1 + digitVal m2
    let dd := 10 * digitVal d1 + digitVal d2
    let aa := 10 * digitVal a1 + digitVal a2
    if validDate (2000 + yy) mm dd then
      some { date := ⟨2000 + yy, mm, dd⟩, amount := (aa * 1000 : ℚ),
             order_id := order_id, customer := customer }
    else none
  | _ => none

/-- `parse_order_from_title` (`main.py`): `^A(\d{10})` is a new customer
(`A`, order id keeps the marker), otherwise `^(\d{10})` is a returning
customer (`B`); any other shape is not an order title. -/
def parse_order_from_title (title : String) : Option ParsedOrder :=
  match title.data with
  | [] => none
  | c :: rest =>
    if c = 'A' then
      match parse10 rest with
      | some ds => parse_digits ds (String.mk ('A' :: ds)) 'A'
      | none => none
    else
      match parse10 (c :: rest) with
      | some ds => parse_digits ds (String.mk ds) 'B'
      | none => none

/-- Contiguous-substring test on character lists (Python `needle in s`). -/
def containsSub (needle : List Char) : List Char → Bool
  | [] => needle.isEmpty
  | c :: rest => needle.isPrefixOf (c :: rest) || containsSub needle rest

/-- `get_state_from_title` (`main.py`): `❌` in the title means breach,
`❗️` means overdue, otherwise normal. -/
def get_state_from_title (title : String) : OrderState :=
  if title.data.contains '❌' then .breach
  else if containsSub "❗️".data title.data then .overdue
  else .normal

/-- Python `str.startswith`. -/
def strStartsWith (s p : String) : Bool := p.data.isPrefixOf s.data

/-- Python `str.endswith`. -/
def strEndsWith (s p : String) : Bool := p.data.isSuffixOf s.data

/-! ## The three ledger tables -/

/-- The triple-layer ledger state: the single `financial_data` row, the
`grouped_data` rows (`groups` lists the group ids for which a row
exists), and the `daily_data` rows keyed by period date and optional
group id. -/
structure LedgerState where
  global : String → ℚ
  groups : List String
  group : String → String → ℚ
  daily : String → Option String → String → ℚ

/-- Columns of `financial_data` (`init_db.py`). -/
def financialColumns : List String :=
  ["valid_orders", "valid_amount", "liquid_funds",
   "new_clients", "new_clients_amount", "old_clients", "old_clients_amount",
   "interest", "completed_orders", "completed_amount",
   "breach_orders", "breach_amount", "breach_end_orders", "breach_end_amount"]

/-- Columns of `grouped_data` (`init_db.py`): same counters as the
global table. -/
def groupedColumns : List String := financialColumns

/-- Columns of `daily_data` (`init_db.py`): flow counters only — note
there is no `valid_orders`/`valid_amount`, no `liquid_funds` and no
`liquid_flow` column. -/
def dailyColumns : List String :=
  ["new_clients", "new_clients_amount", "old_clients", "old_clients_amount",
   "interest", "completed_orders", "completed_amount",
   "breach_orders", "breach_amount", "breach_end_orders", "breach_end_amount"]

/-- `update_financial_data` (`db_operations.py`): add `amount` to the
named column of the global row; an unknown column makes the SQL update
fail and leaves every value unchanged. -/
def update_financial_data (st : LedgerState) (field : String) (amount : ℚ) :
    LedgerState :=
  { st with global := fun f =>
      if field ∈ financialColumns ∧ f = field then st.global f + amount
      else st.global f }

/-- `update_grouped_data` (`db_operations.py`): create the group row
(zero-initialized) if absent, then add `amount` to the named column; an
unknown column fails after the row creation. -/
def update_grouped_data (st : LedgerState) (group_id field : String) (amount : ℚ) :
    LedgerState :=
  { st with
    groups := if group_id ∈ st.groups then st.groups else group_id :: st.groups,
    group := fun g f =>
      if field ∈ groupedColumns ∧ g = group_id ∧ f = field then st.group g f + amount
      else st.group g f }

/-- `update_daily_data` (`db_operations.py`): create the daily row if
absent, then add `amount` to the named column; an unknown column fails
after the row creation (zero rows are observationally absent here). -/
def update_daily_data (st : LedgerState) (date field : String) (amount : ℚ)
    (group_id : Option String) : LedgerState :=
  { st with daily := fun d g f =>
      if field ∈ dailyColumns ∧ d = date ∧ g = group_id ∧ f = field then
        st.daily d g f + amount
      else st.daily d g f }

/-- Amount-field normalization of `update_all_stats` (`main.py`): keep
the name if it already ends in `_amount` or is `liquid_funds` or
`interest`, otherwise append `_amount`. -/
def normAmountField (field : String) : String :=
  if strEndsWith field "_amount" || field == "liquid_funds" || field == "interest" then
    field
  else field ++ "_amount"

/-- Count-field normalization of `update_all_stats` (`main.py`): keep
the name if it already ends in `_orders` or is `new_clients` or
`old_clients`, otherwise append `_orders`. -/
def normCountField (field : String) : String :=
  if strEndsWith field "_orders" || field == "new_clients" || field == "old_clients" then
    field
  else field ++ "_orders"

/-- Daily amount-field rule of `update_all_stats` (`main.py`): like the
global rule but with `interest` as the only bare exception. -/
def dailyAmountField (field : String) : String :=
  if strEndsWith field "_amount" || field == "interest" then field
  else field ++ "_amount"

/-- The allow-list of daily-trackable logical event prefixes
(`daily_allowed_prefixes` in `main.py`). -/
def dailyAllowedPrefixes : List String :=
  ["new_clients", "old_clients", "interest", "completed", "breach", "breach_end"]

/-- Whether the logical event name is routed to the daily ledger. -/
def isDailyField (field : String) : Bool :=
  dailyAllowedPrefixes.any (fun p => strStartsWith field p)

/-- `update_all_stats` (`main.py`): the single stats-update entry point.
Updates the global row (for nonzero deltas), then the daily rows when
the event name is daily-trackable (global-daily row and, when a group id
is supplied, the per-group daily row), then the cumulative group row
when a group id is supplied.  `dateStr` stands for the period date the
source obtains from `get_daily_period_date`; a `group_id` of `none` or
`some ""` is falsy in Python and skips the group writes. -/
def update_all_stats (st : LedgerState) (dateStr field : String)
    (amount count : ℚ) (group_id : Option String) : LedgerState :=
  let st1 := if amount ≠ 0 then update_financial_data st (normAmountField field) amount else st
  let st2 := if count ≠ 0 then update_financial_data st1 (normCountField field) count else st1
  let st3 :=
    if isDailyField field then
      let a1 := if amount ≠ 0 then update_daily_data st2 dateStr (dailyAmountField field) amount none else st2
      let a2 := if count ≠ 0 then update_daily_data a1 dateStr (normCountField field) count none else a1
      match group_id with
      | some g =>
        if g ≠ "" then
          let a3 := if amount ≠ 0 then update_daily_data a2 dateStr (dailyAmountField field) amount (some g) else a2
          if count ≠ 0 then update_daily_data a3 dateStr (normCountField field) count (some g) else a3
        else a2
      | none => a2
    else st2
  match group_id with
  | some g =>
    if g ≠ "" then
      let b1 := if amount ≠ 0 then update_grouped_data st3 g (normAmountField field) amount else st3
      if count ≠ 0 then update_grouped_data b1 g (normCountField field) count else b1
    else st3
  | none => st3

/-- `update_liquid_capital` (`main.py`): every net-cash movement updates
the global `liquid_funds` balance and then attempts to record the flow
in the daily row under `liquid_flow`. -/
def update_liquid_capital (st : LedgerState) (dateStr : String) (amount : ℚ) :
    LedgerState :=
  update_daily_data (update_financial_data st "liquid_funds" amount)
    dateStr "liquid_flow" amount none

/-! ## The order store and the handlers -/

/-- Combined state: the `orders` table (in insertion order) and the
three ledger tables. -/
structure SysState where
  orders : List Order
  ledger : LedgerState

/-- The active-order filter `state NOT IN ('end', 'breach_end')`. -/
def isActive (o : Order) : Bool :=
  match o.state with
  | .end_ => false
  | .breach_end => false
  | _ => true

/-- Row filter of the active-order queries: same chat and active. -/
def activeFor (c : Int) (o : Order) : Bool :=
  decide (o.chat_id = c) && isActive o

/-- `get_order_by_chat_id` (`db_operations.py`): first active order of
the chat. -/
def get_order_by_chat_id (orders : List Order) (c : Int) : Option Order :=
  orders.find? (activeFor c)

/-- `update_order_amount` (`db_operations.py`): set the amount of the
chat's active order(s); the boolean reports whether any row matched. -/
def update_order_amount (orders : List Order) (c : Int) (a : ℚ) :
    List Order × Bool :=
  (orders.map (fun o => if activeFor c o then { o with amount := a } else o),
   orders.any (activeFor c))

/-- `update_order_state` (`db_operations.py`): set the state of the
chat's active order(s); the boolean reports whether any row matched. -/
def update_order_state (orders : List Order) (c : Int) (s : OrderState) :
    List Order × Bool :=
  (orders.map (fun o => if activeFor c o then { o with state := s } else o),
   orders.any (activeFor c))

/-- `set_end` (`main.py`): only a normal or overdue order may be marked
completed; on success the state becomes `end`, the valid counters lose
the order, the completed counters gain it and the order amount is
credited to the liquid funds. -/
def set_end (st : SysState) (chat_id : Int) (dateStr : String) : Res × SysState :=
  match get_order_by_chat_id st.orders chat_id with
  | none => (.errNoOrder, st)
  | some order =>
    if order.state ≠ .normal ∧ order.state ≠ .overdue then (.errWrongState, st)
    else
      let upd := update_order_state st.orders chat_id .end_
      let l1 := update_all_stats st.ledger dateStr "valid" (-order.amount) (-1) (some order.group_id)
      let l2 := update_all_stats l1 dateStr "completed" order.amount 1 (some order.group_id)
      let l3 := update_liquid_capital l2 dateStr order.amount
      (.ok, { orders := upd.1, ledger := l3 })

/-- `set_breach` (`main.py`): the `/breach` command accepts only an
overdue order; on success the valid counters lose the order and the
breach counters gain it (no cash movement). -/
def set_breach (st : SysState) (chat_id : Int) (dateStr : String) : Res × SysState :=
  match get_order_by_chat_id st.orders chat_id with
  | none => (.errNoOrder, st)
  | some order =>
    if order.state ≠ .overdue then (.errWrongState, st)
    else
      let upd := update_order_state st.orders chat_id .breach
      let l1 := update_all_stats st.ledger dateStr "valid" (-order.amount) (-1) (some order.group_id)
      let l2 := update_all_stats l1 dateStr "breach" order.amount 1 (some order.group_id)
      (.ok, { orders := upd.1, ledger := l2 })

/-- `set_breach_end` with an explicit amount argument, and the
`WAITING_BREACH_END_AMOUNT` branch of `handle_text_input` (`main.py`),
which performs the same mutations: only a breach order may be settled,
the settlement amount must be positive, the state becomes `breach_end`,
the breach-end counters gain the settlement amount and the liquid funds
are credited by it.  The order's remaining `amount` is not touched. -/
def set_breach_end (st : SysState) (chat_id : Int) (dateStr : String)
    (amount : ℚ) : Res × SysState :=
  match get_order_by_chat_id st.orders chat_id with
  | none => (.errNoOrder, st)
  | some order =>
    if order.state ≠ .breach then (.errWrongState, st)
    else if amount ≤ 0 then (.errInvalidAmount, st)
    else
      let upd := update_order_state st.orders chat_id .breach_end
      let l1 := update_all_stats st.ledger dateStr "breach_end" amount 1 (some order.group_id)
      let l2 := update_liquid_capital l1 dateStr amount
      (.ok, { orders := upd.1, ledger := l2 })

/-- `set_normal` (`main.py`): overdue back to normal, no ledger effect. -/
def set_normal (st : SysState) (chat_id : Int) : Res × SysState :=
  match get_order_by_chat_id st.orders chat_id with
  | none => (.errNoOrder, st)
  | some order =>
    if order.state ≠ .overdue then (.errWrongState, st)
    else
      let upd := update_order_state st.orders chat_id .normal
      if upd.2 = false then (.errDbError, st)
      else (.ok, { st with orders := upd.1 })

/-- `set_overdue` (`main.py`): normal to overdue, no ledger effect. -/
def set_overdue (st : SysState) (chat_id : Int) : Res × SysState :=
  match get_order_by_chat_id st.orders chat_id with
  | none => (.errNoOrder, st)
  | some order =>
    if order.state ≠ .normal then (.errWrongState, st)
    else
      let upd := update_order_state st.orders chat_id .overdue
      if upd.2 = false then (.errDbError, st)
      else (.ok, { st with orders := upd.1 })

/-- `process_principal_reduction` (`main.py`, reached from
`handle_amount_operation` on `+Nb`): requires a normal or overdue order
and `0 < amount ≤ order.amount`; on success the order amount drops by
the reduction, the valid amount drops and the completed amount rises by
it (counts untouched) and the liquid funds are credited. -/
def process_principal_reduction (st : SysState) (chat_id : Int)
    (dateStr : String) (amount : ℚ) : Res × SysState :=
  match get_order_by_chat_id st.orders chat_id with
  | none => (.errNoOrder, st)
  | some order =>
    if ¬ (order.state = .normal ∨ order.state = .overdue) then (.errWrongState, st)
    else if amount ≤ 0 then (.errInvalidAmount, st)
    else if order.amount < amount then (.errInvalidAmount, st)
    else
      let upd := update_order_amount st.orders chat_id (order.amount - amount)
      if upd.2 = false then (.errDbError, st)
      else
        let l1 := update_all_stats st.ledger dateStr "valid" (-amount) 0 (some order.group_id)
        let l2 := update_all_stats l1 dateStr "completed" amount 0 (some order.group_id)
        let l3 := update_liquid_capital l2 dateStr amount
        (.ok, { orders := upd.1, ledger := l3 })

/-- The no-active-order interest branch of `handle_amount_operation`
(`main.py`): `+N` in a chat without an order records global interest
(no group id) and credits the liquid capital. -/
def handle_interest_no_order (st : SysState) (dateStr : String) (amount : ℚ) :
    SysState :=
  let l1 := update_all_stats st.ledger dateStr "interest" amount 0 none
  let l2 := update_liquid_capital l1 dateStr amount
  { st with ledger := l2 }

/-- `process_interest` (`main.py`): `+N` in a chat with an active order
records the interest against the order's group id. -/
def process_interest (st : SysState) (chat_id : Int) (dateStr : String)
    (amount : ℚ) : Res × SysState :=
  match get_order_by_chat_id st.orders chat_id with
  | none => (.errNoOrder, st)
  | some order =>
    if amount ≤ 0 then (.errInvalidAmount, st)
    else
      let l1 := update_all_stats st.ledger dateStr "interest" amount 0 (some order.group_id)
      let l2 := update_liquid_capital l1 dateStr amount
      (.ok, { st with ledger := l2 })

/-- `update_order_state_from_title` (`main.py`): the automatic state
change when a group title changes.  Terminal orders are left alone; a
matching state is a no-op; otherwise the state is written and, exactly
when the change crosses the valid/breach boundary, the stats move
between the valid and breach counters. -/
def update_order_state_from_title (st : SysState) (chat_id : Int)
    (title dateStr : String) : SysState :=
  match get_order_by_chat_id st.orders chat_id with
  | none => st
  | some order =>
    if order.state = .end_ ∨ order.state = .breach_end then st
    else
      let target := get_state_from_title title
      if order.state = target then st
      else
        let upd := update_order_state st.orders chat_id target
        if upd.2 then
          if (order.state = .normal ∨ order.state = .overdue) ∧ target = .breach then
            let l1 := update_all_stats st.ledger dateStr "valid" (-order.amount) (-1) (some order.group_id)
            let l2 := update_all_stats l1 dateStr "breach" order.amount 1 (some order.group_id)
            { orders := upd.1, ledger := l2 }
          else if order.state = .breach ∧ (target = .normal ∨ target = .overdue) then
            let l1 := update_all_stats st.ledger dateStr "breach" (-order.amount) (-1) (some order.group_id)
            let l2 := update_all_stats l1 dateStr "valid" order.amount 1 (some order.group_id)
            { orders := upd.1, ledger := l2 }
          else { orders := upd.1, ledger := st.ledger }
        else st

/-- The configured historical cutover date (`threshold_date` in
`try_create_order_from_title`). -/
def threshold_date : Date := ⟨2025, 11, 25⟩

/-- `try_create_order_from_title` (`main.py`): parse the title; if the
chat already has an active order, a manual trigger reports it and an
automatic trigger re-derives the state from the title; otherwise check
the balance (skipped for orders dated before the cutover), insert the
order (group id fixed to `S01`), and book the stats — valid or breach
stock plus client counters and a cash debit for a live order, stock only
for a historical import. -/
def try_create_order_from_title (st : SysState) (chat_id : Int)
    (title weekday dateStr : String) (manual : Bool) : Res × SysState :=
  match parse_order_from_title title with
  | none => (.errNoParse, st)
  | some info =>
    match get_order_by_chat_id st.orders chat_id with
    | some _ =>
      if manual then (.errAlreadyExists, st)
      else (.ok, update_order_state_from_title st chat_id title dateStr)
    | none =>
      let initial_state := get_state_from_title title
      let is_historical := dateLt info.date threshold_date
      if is_historical = false ∧ st.ledger.global "liquid_funds" < info.amount then
        (.errInsufficientFunds, st)
      else
        let new_order : Order :=
          { order_id := info.order_id, group_id := "S01", chat_id := chat_id,
            date := info.date, weekday_group := weekday,
            customer := info.customer, amount := info.amount,
            state := initial_state }
        if st.orders.any (fun o => o.order_id == info.order_id) then
          (.errDuplicateOrder, st)
        else
          let orders := st.orders ++ [new_order]
          if is_historical = false then
            let l1 := update_all_stats st.ledger dateStr
              (if initial_state = .breach then "breach" else "valid")
              info.amount 1 (some "S01")
            let l2 := update_liquid_capital l1 dateStr (-info.amount)
            let l3 := update_all_stats l2 dateStr
              (if info.customer = 'A' then "new_clients" else "old_clients")
              info.amount 1 (some "S01")
            (.ok, { orders := orders, ledger := l3 })
          else
            let l1 := update_all_stats st.ledger dateStr
              (if initial_state = .breach then "breach" else "valid")
              info.amount 1 (some "S01")
            (.ok, { orders := orders, ledger := l1 })

/-- `handle_new_chat_title` (`main.py`): a title change updates the
state of an existing order, or attempts an automatic creation. -/
def handle_new_chat_title (st : SysState) (chat_id : Int)
    (title weekday dateStr : String) : SysState :=
  match get_order_by_chat_id st.orders chat_id with
  | some _ => update_order_state_from_title st chat_id title dateStr
  | none => (try_create_order_from_title st chat_id title weekday dateStr false).2

/-! ## Operation sequences -/

/-- The order-affecting operations: order creation (manual command or
title event), state-transition commands and principal reduction. -/
inductive Op where
  | createCmd (chat_id : Int) (title weekday dateStr : String)
  | titleEvent (chat_id : Int) (title weekday dateStr : String)
  | normalCmd (chat_id : Int)
  | overdueCmd (chat_id : Int)
  | endCmd (chat_id : Int) (dateStr : String)
  | breachCmd (chat_id : Int) (dateStr : String)
  | breachEndCmd (chat_id : Int) (amount : ℚ) (dateStr : String)
  | reduceCmd (chat_id : Int) (amount : ℚ) (dateStr : String)

/-- Dispatch one operation to its handler. -/
def runOp (st : SysState) : Op → SysState
  | .createCmd c title w d => (try_create_order_from_title st c title w d true).2
  | .titleEvent c title w d => handle_new_chat_title st c title w d
  | .normalCmd c => (set_normal st c).2
  | .overdueCmd c => (set_overdue st c).2
  | .endCmd c d => (set_end st c d).2
  | .breachCmd c d => (set_breach st c d).2
  | .breachEndCmd c a d => (set_breach_end st c d a).2
  | .reduceCmd c a d => (process_principal_reduction st c d a).2

/-- Run a sequence of operations. -/
def runOps (st : SysState) (ops : List Op) : SysState :=
  ops.foldl runOp st

/-- The initial ledger of `init_db.py`: zero counters, liquid funds
100000, no group rows, no daily rows. -/
def initLedger : LedgerState :=
  { global := fun f => if f = "liquid_funds" then 100000 else 0,
    groups := [],
    group := fun _ _ => 0,
    daily := fun _ _ _ => 0 }

/-- The initial system state: no orders, initial ledger. -/
def initialState : SysState := { orders := [], ledger := initLedger }

/-- Sum of a field over all existing group rows. -/
def groupSum (st : LedgerState) (f : String) : ℚ :=
  (st.groups.map (fun g => st.group g f)).sum

/-- The central ledger consistency contract for the live-exposure
fields: group rows are unique, absent rows are zero, and the global
`valid_amount` and `valid_orders` equal their sums over all group rows. -/
def ledgerInv (st : LedgerState) : Prop :=
  st.groups.Nodup ∧
  (∀ g f, g ∉ st.groups → st.group g f = 0) ∧
  st.global "valid_amount" = groupSum st "valid_amount" ∧
  st.global "valid_orders" = groupSum st "valid_orders"

/-- System-level invariant: the ledger contract plus the fact that
every stored order carries a (truthy) group id. -/
def sysInv (st : SysState) : Prop :=
  ledgerInv st.ledger ∧ ∀ o ∈ st.orders, o.group_id ≠ ""

/-! ## Projection and commutation lemmas for the ledger updates -/

@[simp]
lemma update_financial_data_groups (st : LedgerState) (f : String) (a : ℚ) :
    (update_financial_data st f a).groups = st.groups := rfl

@[simp]
lemma update_financial_data_group (st : LedgerState) (f : String) (a : ℚ) :
    (update_financial_data st f a).group = st.group := rfl

@[simp]
lemma update_financial_data_daily (st : LedgerState) (f : String) (a : ℚ) :
    (update_financial_data st f a).daily = st.daily := rfl

@[simp]
lemma update_financial_data_global_apply (st : LedgerState) (f : String) (a : ℚ)
    (F : String) :
    (update_financial_data st f a).global F =
      if f ∈ financialColumns ∧ F = f then st.global F + a else st.global F := rfl

@[simp]
lemma update_grouped_data_global (st : LedgerState) (g f : String) (a : ℚ) :
    (update_grouped_data st g f a).global = st.global := rfl

@[simp]
lemma update_grouped_data_daily (st : LedgerState) (g f : String) (a : ℚ) :
    (update_grouped_data st g f a).daily = st.daily := rfl

@[simp]
lemma update_grouped_data_groups (st : LedgerState) (g f : String) (a : ℚ) :
    (update_grouped_data st g f a).groups =
      if g ∈ st.groups then st.groups else g :: st.groups := rfl

@[simp]
lemma update_grouped_data_group_apply (st : LedgerState) (g f : String) (a : ℚ)
    (G F : String) :
    (update_grouped_data st g f a).group G F =
      if f ∈ groupedColumns ∧ G = g ∧ F = f then st.group G F + a
      else st.group G F := rfl

@[simp]
lemma update_daily_data_global (st : LedgerState) (d f : String) (a : ℚ)
    (gid : Option String) :
    (update_daily_data st d f a gid).global = st.global := rfl

@[simp]
lemma update_daily_data_groups (st : LedgerState) (d f : String) (a : ℚ)
    (gid : Option String) :
    (update_daily_data st d f a gid).groups = st.groups := rfl

@[simp]
lemma update_daily_data_group (st : LedgerState) (d f : String) (a : ℚ)
    (gid : Option String) :
    (update_daily_data st d f a gid).group = st.group := rfl

@[simp]
lemma update_daily_data_daily_apply (st : LedgerState) (d f : String) (a : ℚ)
    (gid : Option String) (D : String) (G : Option String) (F : String) :
    (update_daily_data st d f a gid).daily D G F =
      if f ∈ dailyColumns ∧ D = d ∧ G = gid ∧ F = f then st.daily D G F + a
      else st.daily D G F := rfl

/-- A group-row update and a global-row update act on disjoint
components, hence commute. -/
lemma fin_grp_comm (st : LedgerState) (g F2 : String) (δ2 : ℚ) (F : String)
    (δ : ℚ) :
    update_financial_data (update_grouped_data st g F2 δ2) F δ =
      update_grouped_data (update_financial_data st F δ) g F2 δ2 := rfl

/-- A group-row update and a daily-row update act on disjoint
components, hence commute. -/
lemma grp_daily_comm (st : LedgerState) (d f2 : String) (a2 : ℚ)
    (gid : Option String) (g F : String) (δ : ℚ) :
    update_grouped_data (update_daily_data st d f2 a2 gid) g F δ =
      update_daily_data (update_grouped_data st g F δ) d f2 a2 gid := rfl

/-- The ledger invariant does not mention the daily table. -/
lemma ledgerInv_update_daily (st : LedgerState) (d f : String) (a : ℚ)
    (gid : Option String) :
    ledgerInv (update_daily_data st d f a gid) ↔ ledgerInv st := Iff.rfl

/-! ## Sum lemmas for the group table -/

lemma sum_map_congr_not_mem (l : List String) (g : String) (h : String → ℚ)
    (δ : ℚ) (hg : g ∉ l) :
    (l.map (fun x => if x = g then h x + δ else h x)).sum = (l.map h).sum := by
  induction l with
  | nil => rfl
  | cons a t ih =>
    simp only [List.mem_cons, not_or] at hg
    rw [List.map_cons, List.map_cons, List.sum_cons, List.sum_cons,
      if_neg (fun hEq => hg.1 hEq.symm), ih hg.2]

lemma sum_map_update_of_mem (l : List String) (g : String) (h : String → ℚ)
    (δ : ℚ) (hnd : l.Nodup) (hg : g ∈ l) :
    (l.map (fun x => if x = g then h x + δ else h x)).sum = (l.map h).sum + δ := by
  induction l with
  | nil => cases hg
  | cons a t ih =>
    by_cases hag : a = g
    · subst hag
      have hnt : a ∉ t := (List.nodup_cons.mp hnd).1
      rw [List.map_cons, List.map_cons, List.sum_cons, List.sum_cons, if_pos rfl,
        sum_map_congr_not_mem t a h δ hnt]
      ring
    · have hgt : g ∈ t := by
        rcases List.mem_cons.mp hg with h1 | h2
        · exact absurd h1.symm hag
        · exact h2
      rw [List.map_cons, List.map_cons, List.sum_cons, List.sum_cons, if_neg hag,
        ih (List.nodup_cons.mp hnd).2 hgt]
      ring

/-! ## Preservation of the ledger invariant -/

lemma groupedColumns_eq : groupedColumns = financialColumns := rfl

/-- A paired global-plus-group write of the same field and delta keeps a
summable field summable. -/
lemma pair_field (st : LedgerState) (F : String) (δ : ℚ) (g V : String)
    (hcolV : V ∈ financialColumns)
    (hnd : st.groups.Nodup)
    (hwf : ∀ g2 f, g2 ∉ st.groups → st.group g2 f = 0)
    (hglob : st.global V = groupSum st V) :
    (update_grouped_data (update_financial_data st F δ) g F δ).global V =
      groupSum (update_grouped_data (update_financial_data st F δ) g F δ) V := by
  by_cases hFV : F = V
  · subst hFV
    rw [update_grouped_data_global, update_financial_data_global_apply,
      if_pos ⟨hcolV, rfl⟩]
    unfold groupSum
    simp only [update_grouped_data_groups, update_financial_data_groups,
      update_grouped_data_group_apply, update_financial_data_group,
      groupedColumns_eq, hcolV, eq_self_iff_true, and_true, true_and]
    by_cases hm : g ∈ st.groups
    · rw [if_pos hm,
        sum_map_update_of_mem st.groups g (fun x => st.group x F) δ hnd hm, hglob]
      rfl
    · rw [if_neg hm, List.map_cons, List.sum_cons, if_pos rfl,
        sum_map_congr_not_mem st.groups g (fun x => st.group x F) δ hm,
        hwf g F hm, hglob]
      show groupSum st F + δ = 0 + δ + groupSum st F
      ring
  · rw [update_grouped_data_global, update_financial_data_global_apply,
      if_neg (fun hcc => hFV hcc.2.symm)]
    unfold groupSum
    have hVF : (V = F) = False := eq_false (fun h2 => hFV h2.symm)
    simp only [update_grouped_data_groups, update_financial_data_groups,
      update_grouped_data_group_apply, update_financial_data_group,
      hVF, and_false, if_false]
    by_cases hm : g ∈ st.groups
    · rw [if_pos hm, hglob]
      rfl
    · rw [if_neg hm, List.map_cons, List.sum_cons, hwf g V hm, hglob]
      show groupSum st V = 0 + groupSum st V
      ring

/-- A paired global-plus-group write of the same field and delta
preserves the ledger invariant. -/
lemma pair_preserves (st : LedgerState) (F : String) (δ : ℚ) (g : String)
    (h : ledgerInv st) :
    ledgerInv (update_grouped_data (update_financial_data st F δ) g F δ) := by
  obtain ⟨hnd, hwf, hva, hvo⟩ := h
  refine ⟨?_, ?_, ?_, ?_⟩
  · rw [update_grouped_data_groups, update_financial_data_groups]
    by_cases hm : g ∈ st.groups
    · rw [if_pos hm]; exact hnd
    · rw [if_neg hm]; exact List.nodup_cons.mpr ⟨hm, hnd⟩
  · intro g2 f hg2
    rw [update_grouped_data_groups, update_financial_data_groups] at hg2
    rw [update_grouped_data_group_apply, update_financial_data_group]
    have hg2g : g2 ≠ g := by
      by_cases hm : g ∈ st.groups
      · rw [if_pos hm] at hg2
        rintro rfl
        exact hg2 hm
      · rw [if_neg hm] at hg2
        intro hEq
        exact hg2 (by rw [hEq]; exact List.mem_cons_self g st.groups)
    have hg2m : g2 ∉ st.groups := by
      by_cases hm : g ∈ st.groups
      · rwa [if_pos hm] at hg2
      · rw [if_neg hm] at hg2
        intro hmem
        exact hg2 (List.mem_cons_of_mem g hmem)
    rw [if_neg (fun hc => hg2g hc.2.1), hwf g2 f hg2m]
  · exact pair_field st F δ g "valid_amount" (by decide) hnd hwf hva
  · exact pair_field st F δ g "valid_orders" (by decide) hnd hwf hvo

/-- A global write of a field other than the summable valid fields
preserves the ledger invariant. -/
lemma fin_preserves_nonvalid (st : LedgerState) (F : String) (δ : ℚ)
    (h1 : F ≠ "valid_amount") (h2 : F ≠ "valid_orders") (h : ledgerInv st) :
    ledgerInv (update_financial_data st F δ) := by
  obtain ⟨hnd, hwf, hva, hvo⟩ := h
  refine ⟨hnd, hwf, ?_, ?_⟩
  · rw [update_financial_data_global_apply, if_neg (fun hcc => h1 hcc.2.symm)]
    exact hva
  · rw [update_financial_data_global_apply, if_neg (fun hcc => h2 hcc.2.symm)]
    exact hvo

/-- `update_liquid_capital` touches only `liquid_funds` and the daily
table, hence preserves the ledger invariant. -/
lemma ulc_preserves (st : LedgerState) (d : String) (a : ℚ)
    (h : ledgerInv st) : ledgerInv (update_liquid_capital st d a) := by
  unfold update_liquid_capital
  rw [ledgerInv_update_daily]
  exact fin_preserves_nonvalid st "liquid_funds" a (by decide) (by decide) h

/-- The single stats-update entry point preserves the ledger invariant
whenever it is given a (truthy) group id. -/
lemma uas_preserves (st : LedgerState) (d f : String) (a c : ℚ) (g : String)
    (hg : g ≠ "") (h : ledgerInv st) :
    ledgerInv (update_all_stats st d f a c (some g)) := by
  unfold update_all_stats
  by_cases hd : isDailyField f = true <;> by_cases ha : a = 0 <;>
    by_cases hc : c = 0 <;>
    simp only [hd, ha, hc, hg, ne_eq, eq_self_iff_true, not_true, not_false_iff,
      ite_true, ite_false, Bool.false_eq_true, if_true, if_false] <;>
    (try simp only [grp_daily_comm, ledgerInv_update_daily]) <;>
    (first
      | exact h
      | exact pair_preserves _ _ _ _ h
      | (rw [← fin_grp_comm]
         exact pair_preserves _ _ _ _ (pair_preserves _ _ _ _ h)))

/-! ## Preservation through the handlers -/

lemma get_order_mem (orders : List Order) (c : Int) (order : Order)
    (h : get_order_by_chat_id orders c = some order) : order ∈ orders :=
  List.mem_of_find?_eq_some h

lemma get_order_any (orders : List Order) (c : Int) (order : Order)
    (h : get_order_by_chat_id orders c = some order) :
    orders.any (activeFor c) = true :=
  List.any_eq_true.mpr
    ⟨order, List.mem_of_find?_eq_some h, List.find?_some h⟩

lemma update_order_state_group_ids (orders : List Order) (c : Int)
    (s : OrderState) (h : ∀ o ∈ orders, o.group_id ≠ "") :
    ∀ o ∈ (update_order_state orders c s).1, o.group_id ≠ "" := by
  intro o ho
  rcases List.mem_map.mp ho with ⟨o0, h0, rfl⟩
  cases hA : activeFor c o0 <;> simp [hA] <;> exact h o0 h0

lemma update_order_amount_group_ids (orders : List Order) (c : Int) (a : ℚ)
    (h : ∀ o ∈ orders, o.group_id ≠ "") :
    ∀ o ∈ (update_order_amount orders c a).1, o.group_id ≠ "" := by
  intro o ho
  rcases List.mem_map.mp ho with ⟨o0, h0, rfl⟩
  cases hA : activeFor c o0 <;> simp [hA] <;> exact h o0 h0

lemma sysInv_set_end (st : SysState) (c : Int) (d : String) (h : sysInv st) :
    sysInv (set_end st c d).2 := by
  unfold set_end
  cases hf : get_order_by_chat_id st.orders c with
  | none => exact h
  | some order =>
    dsimp only
    by_cases hcond : order.state ≠ OrderState.normal ∧ order.state ≠ OrderState.overdue
    · rw [if_pos hcond]
      exact h
    · rw [if_neg hcond]
      have hg : order.group_id ≠ "" := h.2 order (get_order_mem _ _ _ hf)
      exact ⟨ulc_preserves _ _ _
          (uas_preserves _ _ _ _ _ _ hg (uas_preserves _ _ _ _ _ _ hg h.1)),
        update_order_state_group_ids _ _ _ h.2⟩

lemma sysInv_set_breach (st : SysState) (c : Int) (d : String) (h : sysInv st) :
    sysInv (set_breach st c d).2 := by
  unfold set_breach
  cases hf : get_order_by_chat_id st.orders c with
  | none => exact h
  | some order =>
    dsimp only
    by_cases hcond : order.state ≠ OrderState.overdue
    · rw [if_pos hcond]
      exact h
    · rw [if_neg hcond]
      have hg : order.group_id ≠ "" := h.2 order (get_order_mem _ _ _ hf)
      exact ⟨uas_preserves _ _ _ _ _ _ hg (uas_preserves _ _ _ _ _ _ hg h.1),
        update_order_state_group_ids _ _ _ h.2⟩

lemma sysInv_set_breach_end (st : SysState) (c : Int) (d : String) (a : ℚ)
    (h : sysInv st) : sysInv (set_breach_end st c d a).2 := by
  unfold set_breach_end
  cases hf : get_order_by_chat_id st.orders c with
  | none => exact h
  | some order =>
    dsimp only
    by_cases hcond : order.state ≠ OrderState.breach
    · rw [if_pos hcond]
      exact h
    · rw [if_neg hcond]
      by_cases hA : a ≤ 0
      · rw [if_pos hA]
        exact h
      · rw [if_neg hA]
        have hg : order.group_id ≠ "" := h.2 order (get_order_mem _ _ _ hf)
        exact ⟨ulc_preserves _ _ _ (uas_preserves _ _ _ _ _ _ hg h.1),
          update_order_state_group_ids _ _ _ h.2⟩

lemma sysInv_set_normal (st : SysState) (c : Int) (h : sysInv st) :
    sysInv (set_normal st c).2 := by
  unfold set_normal
  cases hf : get_order_by_chat_id st.orders c with
  | none => exact h
  | some order =>
    dsimp only
    by_cases hcond : order.state ≠ OrderState.overdue
    · rw [if_pos hcond]
      exact h
    · rw [if_neg hcond]
      by_cases hu : (update_order_state st.orders c OrderState.normal).2 = false
      · rw [if_pos hu]
        exact h
      · rw [if_neg hu]
        exact ⟨h.1, update_order_state_group_ids _ _ _ h.2⟩

lemma sysInv_set_overdue (st : SysState) (c : Int) (h : sysInv st) :
    sysInv (set_overdue st c).2 := by
  unfold set_overdue
  cases hf : get_order_by_chat_id st.orders c with
  | none => exact h
  | some order =>
    dsimp only
    by_cases hcond : order.state ≠ OrderState.normal
    · rw [if_pos hcond]
      exact h
    · rw [if_neg hcond]
      by_cases hu : (update_order_state st.orders c OrderState.overdue).2 = false
      · rw [if_pos hu]
        exact h
      · rw [if_neg hu]
        exact ⟨h.1, update_order_state_group_ids _ _ _ h.2⟩

lemma sysInv_process_principal_reduction (st : SysState) (c : Int) (d : String)
    (a : ℚ) (h : sysInv st) : sysInv (process_principal_reduction st c d a).2 := by
  unfold process_principal_reduction
  cases hf : get_order_by_chat_id st.orders c with
  | none => exact h
  | some order =>
    dsimp only
    by_cases hcond : ¬ (order.state = OrderState.normal ∨ order.state = OrderState.overdue)
    · rw [if_pos hcond]
      exact h
    · rw [if_neg hcond]
      by_cases hA : a ≤ 0
      · rw [if_pos hA]
        exact h
      · rw [if_neg hA]
        by_cases hB : order.amount < a
        · rw [if_pos hB]
          exact h
        · rw [if_neg hB]
          by_cases hu : (update_order_amount st.orders c (order.amount - a)).2 = false
          · rw [if_pos hu]
            exact h
          · rw [if_neg hu]
            have hg : order.group_id ≠ "" := h.2 order (get_order_mem _ _ _ hf)
            exact ⟨ulc_preserves _ _ _
                (uas_preserves _ _ _ _ _ _ hg (uas_preserves _ _ _ _ _ _ hg h.1)),
              update_order_amount_group_ids _ _ _ h.2⟩

lemma sysInv_update_order_state_from_title (st : SysState) (c : Int)
    (title d : String) (h : sysInv st) :
    sysInv (update_order_state_from_title st c title d) := by
  unfold update_order_state_from_title
  cases hf : get_order_by_chat_id st.orders c with
  | none => exact h
  | some order =>
    dsimp only
    have hg : order.group_id ≠ "" := h.2 order (get_order_mem _ _ _ hf)
    by_cases h1 : order.state = OrderState.end_ ∨ order.state = OrderState.breach_end
    · rw [if_pos h1]
      exact h
    · rw [if_neg h1]
      by_cases h2 : order.state = get_state_from_title title
      · rw [if_pos h2]
        exact h
      · rw [if_neg h2]
        by_cases hu : (update_order_state st.orders c (get_state_from_title title)).2 = true
        · rw [if_pos hu]
          by_cases h3 : (order.state = OrderState.normal ∨ order.state = OrderState.overdue) ∧
              get_state_from_title title = OrderState.breach
          · rw [if_pos h3]
            exact ⟨uas_preserves _ _ _ _ _ _ hg (uas_preserves _ _ _ _ _ _ hg h.1),
              update_order_state_group_ids _ _ _ h.2⟩
          · rw [if_neg h3]
            by_cases h4 : order.state = OrderState.breach ∧
                (get_state_from_title title = OrderState.normal ∨
                  get_state_from_title title = OrderState.overdue)
            · rw [if_pos h4]
              exact ⟨uas_preserves _ _ _ _ _ _ hg (uas_preserves _ _ _ _ _ _ hg h.1),
                update_order_state_group_ids _ _ _ h.2⟩
            · rw [if_neg h4]
              exact ⟨h.1, update_order_state_group_ids _ _ _ h.2⟩
        · rw [if_neg hu]
          exact h

lemma sysInv_try_create (st : SysState) (c : Int) (title w d : String)
    (manual : Bool) (h : sysInv st) :
    sysInv (try_create_order_from_title st c title w d manual).2 := by
  unfold try_create_order_from_title
  cases hp : parse_order_from_title title with
  | none => exact h
  | some info =>
    dsimp only
    cases hf : get_order_by_chat_id st.orders c with
    | some o =>
      dsimp only
      cases manual with
      | true =>
        rw [if_pos rfl]
        exact h
      | false =>
        rw [if_neg (by decide)]
        exact sysInv_update_order_state_from_title st c title d h
    | none =>
      dsimp only
      by_cases hb : dateLt info.date threshold_date = false ∧
          st.ledger.global "liquid_funds" < info.amount
      · rw [if_pos hb]
        exact h
      · rw [if_neg hb]
        by_cases hdup : st.orders.any (fun o => o.order_id == info.order_id) = true
        · rw [if_pos hdup]
          exact h
        · rw [if_neg hdup]
          have horders : ∀ o2 ∈ st.orders ++
              [({ order_id := info.order_id, group_id := "S01", chat_id := c,
                  date := info.date, weekday_group := w,
                  customer := info.customer, amount := info.amount,
                  state := get_state_from_title title } : Order)],
              o2.group_id ≠ "" := by
            intro o2 ho2
            rcases List.mem_append.mp ho2 with hin | hnew
            · exact h.2 o2 hin
            · rw [List.mem_singleton.mp hnew]
              show ("S01" : String) ≠ ""
              decide
          by_cases hhist : dateLt info.date threshold_date = false
          · rw [if_pos hhist]
            exact ⟨uas_preserves _ _ _ _ _ _ (by decide)
                (ulc_preserves _ _ _
                  (uas_preserves _ _ _ _ _ _ (by decide) h.1)),
              horders⟩
          · rw [if_neg hhist]
            exact ⟨uas_preserves _ _ _ _ _ _ (by decide) h.1, horders⟩

lemma sysInv_handle_new_chat_title (st : SysState) (c : Int) (title w d : String)
    (h : sysInv st) : sysInv (handle_new_chat_title st c title w d) := by
  unfold handle_new_chat_title
  cases hf : get_order_by_chat_id st.orders c with
  | some o => exact sysInv_update_order_state_from_title st c title d h
  | none => exact sysInv_try_create st c title w d false h

lemma sysInv_runOp (st : SysState) (op : Op) (h : sysInv st) :
    sysInv (runOp st op) := by
  cases op with
  | createCmd c t w d => exact sysInv_try_create st c t w d true h
  | titleEvent c t w d => exact sysInv_handle_new_chat_title st c t w d h
  | normalCmd c => exact sysInv_set_normal st c h
  | overdueCmd c => exact sysInv_set_overdue st c h
  | endCmd c d => exact sysInv_set_end st c d h
  | breachCmd c d => exact sysInv_set_breach st c d h
  | breachEndCmd c a d => exact sysInv_set_breach_end st c d a h
  | reduceCmd c a d => exact sysInv_process_principal_reduction st c d a h

lemma sysInv_runOps (st : SysState) (ops : List Op) (h : sysInv st) :
    sysInv (runOps st ops) := by
  induction ops generalizing st with
  | nil => exact h
  | cons op rest ih => exact ih (runOp st op) (sysInv_runOp st op h)

lemma sysInv_initialState : sysInv initialState := by
  refine ⟨⟨List.nodup_nil, ?_, rfl, rfl⟩, ?_⟩
  · intro g f _
    rfl
  · intro o ho
    exact absurd ho (List.not_mem_nil o)

/-! ## Value lemmas for the stats entry point -/

lemma update_all_stats_global_eq (st : LedgerState) (d f : String) (a c : ℚ)
    (gid : Option String) :
    (update_all_stats st d f a c gid).global =
      (if c ≠ 0 then
        update_financial_data
          (if a ≠ 0 then update_financial_data st (normAmountField f) a else st)
          (normCountField f) c
      else
        (if a ≠ 0 then update_financial_data st (normAmountField f) a else st)).global := by
  unfold update_all_stats
  rcases gid with _ | g
  · by_cases hd : isDailyField f = true <;> by_cases ha : a = 0 <;>
      by_cases hc : c = 0 <;> simp [hd, ha, hc]
  · by_cases hg : g = "" <;> by_cases hd : isDailyField f = true <;>
      by_cases ha : a = 0 <;> by_cases hc : c = 0 <;> simp [hd, ha, hc, hg]

lemma update_all_stats_global_apply (st : LedgerState) (d f : String) (a c : ℚ)
    (gid : Option String) (F : String) :
    (update_all_stats st d f a c gid).global F =
      st.global F
      + (if normAmountField f ∈ financialColumns ∧ F = normAmountField f then a else 0)
      + (if normCountField f ∈ financialColumns ∧ F = normCountField f then c else 0) := by
  rw [update_all_stats_global_eq]
  by_cases ha : a = 0 <;> by_cases hc : c = 0 <;>
    simp [ha, hc] <;> split_ifs <;> ring

lemma update_grouped_data_group_congr (X Y : LedgerState) (g F : String)
    (δ : ℚ) (h : X.group = Y.group) :
    (update_grouped_data X g F δ).group = (update_grouped_data Y g F δ).group := by
  funext G F2
  rw [update_grouped_data_group_apply, update_grouped_data_group_apply, h]

lemma update_all_stats_group_eq (st : LedgerState) (d f : String) (a c : ℚ)
    (g : String) (hg : g ≠ "") :
    (update_all_stats st d f a c (some g)).group =
      (if c ≠ 0 then
        update_grouped_data
          (if a ≠ 0 then update_grouped_data st g (normAmountField f) a else st)
          g (normCountField f) c
      else
        (if a ≠ 0 then update_grouped_data st g (normAmountField f) a else st)).group := by
  unfold update_all_stats
  by_cases hd : isDailyField f = true <;> by_cases ha : a = 0 <;>
    by_cases hc : c = 0 <;> simp [hd, ha, hc, hg] <;>
    (apply update_grouped_data_group_congr
     first
      | simp
      | (apply update_grouped_data_group_congr
         simp))

lemma update_all_stats_group_apply (st : LedgerState) (d f : String) (a c : ℚ)
    (g : String) (hg : g ≠ "") (G F : String) :
    (update_all_stats st d f a c (some g)).group G F =
      st.group G F
      + (if normAmountField f ∈ groupedColumns ∧ G = g ∧ F = normAmountField f then a else 0)
      + (if normCountField f ∈ groupedColumns ∧ G = g ∧ F = normCountField f then c else 0) := by
  rw [update_all_stats_group_eq st d f a c g hg]
  by_cases ha : a = 0 <;> by_cases hc : c = 0 <;>
    simp [ha, hc] <;> split_ifs <;> ring

lemma update_all_stats_none_groups (st : LedgerState) (d f : String) (a c : ℚ) :
    (update_all_stats st d f a c none).groups = st.groups := by
  unfold update_all_stats
  by_cases hd : isDailyField f = true <;> by_cases ha : a = 0 <;>
    by_cases hc : c = 0 <;> simp [hd, ha, hc]

lemma update_all_stats_none_group (st : LedgerState) (d f : String) (a c : ℚ) :
    (update_all_stats st d f a c none).group = st.group := by
  unfold update_all_stats
  by_cases hd : isDailyField f = true <;> by_cases ha : a = 0 <;>
    by_cases hc : c = 0 <;> simp [hd, ha, hc]

lemma update_all_stats_none_daily_group_row (st : LedgerState) (d f : String)
    (a c : ℚ) (D : String) (G : String) (F : String) :
    (update_all_stats st d f a c none).daily D (some G) F =
      st.daily D (some G) F := by
  unfold update_all_stats
  by_cases hd : isDailyField f = true <;> by_cases ha : a = 0 <;>
    by_cases hc : c = 0 <;> simp [hd, ha, hc]

lemma update_all_stats_none_daily_none_apply (st : LedgerState) (d f : String)
    (a c : ℚ) (D : String) (F : String) :
    (update_all_stats st d f a c none).daily D none F =
      st.daily D none F
      + (if isDailyField f = true ∧ dailyAmountField f ∈ dailyColumns ∧
            D = d ∧ F = dailyAmountField f then a else 0)
      + (if isDailyField f = true ∧ normCountField f ∈ dailyColumns ∧
            D = d ∧ F = normCountField f then c else 0) := by
  unfold update_all_stats
  by_cases hd : isDailyField f = true <;> by_cases ha : a = 0 <;>
    by_cases hc : c = 0 <;> simp [hd, ha, hc] <;> split_ifs <;> ring

lemma update_all_stats_daily_none_apply (st : LedgerState) (d f : String)
    (a c : ℚ) (gid : Option String) (D : String) (F : String) :
    (update_all_stats st d f a c gid).daily D none F =
      st.daily D none F
      + (if isDailyField f = true ∧ dailyAmountField f ∈ dailyColumns ∧
            D = d ∧ F = dailyAmountField f then a else 0)
      + (if isDailyField f = true ∧ normCountField f ∈ dailyColumns ∧
            D = d ∧ F = normCountField f then c else 0) := by
  unfold update_all_stats
  rcases gid with _ | g
  · by_cases hd : isDailyField f = true <;> by_cases ha : a = 0 <;>
      by_cases hc : c = 0 <;> simp [hd, ha, hc] <;> split_ifs <;> ring
  · by_cases hg : g = "" <;> by_cases hd : isDailyField f = true <;>
      by_cases ha : a = 0 <;> by_cases hc : c = 0 <;>
      simp [hd, ha, hc, hg] <;> split_ifs <;> ring

/-- The daily table is untouched for an event name outside the
allow-list. -/
lemma update_all_stats_daily_not_allowed (st : LedgerState) (d f : String)
    (a c : ℚ) (gid : Option String) (hd : isDailyField f = false) :
    (update_all_stats st d f a c gid).daily = st.daily := by
  unfold update_all_stats
  rcases gid with _ | g
  · by_cases ha : a = 0 <;> by_cases hc : c = 0 <;> simp [hd, ha, hc]
  · by_cases hg : g = "" <;> by_cases ha : a = 0 <;> by_cases hc : c = 0 <;>
      simp [hd, ha, hc, hg]

@[simp]
lemma update_liquid_capital_global_apply (st : LedgerState) (d : String)
    (a : ℚ) (F : String) :
    (update_liquid_capital st d a).global F =
      if F = "liquid_funds" then st.global F + a else st.global F := by
  unfold update_liquid_capital
  rw [update_daily_data_global, update_financial_data_global_apply]
  have hmem : ("liquid_funds" : String) ∈ financialColumns := by decide
  simp [hmem]

@[simp]
lemma update_liquid_capital_groups (st : LedgerState) (d : String) (a : ℚ) :
    (update_liquid_capital st d a).groups = st.groups := rfl

@[simp]
lemma update_liquid_capital_group (st : LedgerState) (d : String) (a : ℚ) :
    (update_liquid_capital st d a).group = st.group := rfl

/-- The attempted `liquid_flow` daily write of `update_liquid_capital`
is lost: `daily_data` has no `liquid_flow` column, so the SQL update
fails and no daily value changes. -/
@[simp]
lemma update_liquid_capital_daily (st : LedgerState) (d : String) (a : ℚ) :
    (update_liquid_capital st d a).daily = st.daily := by
  funext D G F
  unfold update_liquid_capital
  rw [update_daily_data_daily_apply]
  exact if_neg (fun hcc => absurd hcc.1 (by decide))

/-! ## Field-name normalization on the concrete event names -/

@[simp] lemma normAmountField_valid : normAmountField "valid" = "valid_amount" := rfl

@[simp] lemma normCountField_valid : normCountField "valid" = "valid_orders" := rfl

@[simp] lemma normAmountField_completed : normAmountField "completed" = "completed_amount" := rfl

@[simp] lemma normCountField_completed : normCountField "completed" = "completed_orders" := rfl

@[simp] lemma normAmountField_breach : normAmountField "breach" = "breach_amount" := rfl

@[simp] lemma normCountField_breach : normCountField "breach" = "breach_orders" := rfl

@[simp] lemma normAmountField_breach_end : normAmountField "breach_end" = "breach_end_amount" := rfl

@[simp] lemma normCountField_breach_end : normCountField "breach_end" = "breach_end_orders" := rfl

@[simp] lemma normAmountField_new_clients : normAmountField "new_clients" = "new_clients_amount" := rfl

@[simp] lemma normCountField_new_clients : normCountField "new_clients" = "new_clients" := rfl

@[simp] lemma normAmountField_old_clients : normAmountField "old_clients" = "old_clients_amount" := rfl

@[simp] lemma normCountField_old_clients : normCountField "old_clients" = "old_clients" := rfl

@[simp] lemma normAmountField_interest : normAmountField "interest" = "interest" := rfl

@[simp] lemma normCountField_interest : normCountField "interest" = "interest_orders" := rfl

@[simp] lemma dailyAmountField_interest : dailyAmountField "interest" = "interest" := rfl

@[simp] lemma dailyAmountField_valid : dailyAmountField "valid" = "valid_amount" := rfl

@[simp] lemma dailyAmountField_completed : dailyAmountField "completed" = "completed_amount" := rfl

@[simp] lemma dailyAmountField_breach : dailyAmountField "breach" = "breach_amount" := rfl

@[simp] lemma dailyAmountField_breach_end : dailyAmountField "breach_end" = "breach_end_amount" := rfl

@[simp] lemma dailyAmountField_new_clients : dailyAmountField "new_clients" = "new_clients_amount" := rfl

@[simp] lemma dailyAmountField_old_clients : dailyAmountField "old_clients" = "old_clients_amount" := rfl

@[simp] lemma isDailyField_completed : isDailyField "completed" = true := rfl

@[simp] lemma isDailyField_breach : isDailyField "breach" = true := rfl

@[simp] lemma isDailyField_breach_end : isDailyField "breach_end" = true := rfl

@[simp] lemma isDailyField_new_clients : isDailyField "new_clients" = true := rfl

@[simp] lemma isDailyField_old_clients : isDailyField "old_clients" = true := rfl

@[simp] lemma isDailyField_valid : isDailyField "valid" = false := rfl

@[simp] lemma isDailyField_liquid_funds : isDailyField "liquid_funds" = false := rfl

@[simp] lemma isDailyField_interest : isDailyField "interest" = true := rfl

/-! ## Shared concrete states for witnesses and counterexamples -/

/-- A sample order of amount 5000 in group `S01`, chat 1. -/
def sampleOrder (s : OrderState) : Order :=
  { order_id := "2512010105", group_id := "S01", chat_id := 1,
    date := ⟨2025, 12, 1⟩, weekday_group := "一", customer := 'B',
    amount := 5000, state := s }

/-- A system state holding exactly the sample order in state `s` over
the initial ledger. -/
def stWith (s : OrderState) : SysState :=
  { orders := [sampleOrder s], ledger := initLedger }

/-! ## Claim C1 -/

/-- C1: for every sequence of order-affecting operations (order
creation, state transitions, principal reduction) that each carry a
group id and route through `update_all_stats`, the global
`valid_amount` (and `valid_orders`) equals the sum of the field over
all group rows after every completed operation: starting from any state
satisfying the consistency contract (in particular the initial
database), running any such sequence keeps the global valid fields
equal to their sums over the group rows. -/
theorem c1_global_valid_equals_group_sum (st : SysState) (ops : List Op)
    (h : sysInv st) :
    (runOps st ops).ledger.global "valid_amount" =
      groupSum (runOps st ops).ledger "valid_amount" ∧
    (runOps st ops).ledger.global "valid_orders" =
      groupSum (runOps st ops).ledger "valid_orders" :=
  ⟨(sysInv_runOps st ops h).1.2.2.1, (sysInv_runOps st ops h).1.2.2.2⟩

/-- Witness for C1: the invariant discharged at the initial database
state for a concrete sequence (a live creation followed by a completed
order). -/
theorem c1_witness :
    sysInv initialState ∧
    ((runOps initialState
        [Op.createCmd 1 "2512010105" "一" "2025-12-01",
         Op.endCmd 1 "2025-12-01"]).ledger.global "valid_amount" =
      groupSum (runOps initialState
        [Op.createCmd 1 "2512010105" "一" "2025-12-01",
         Op.endCmd 1 "2025-12-01"]).ledger "valid_amount" ∧
     (runOps initialState
        [Op.createCmd 1 "2512010105" "一" "2025-12-01",
         Op.endCmd 1 "2025-12-01"]).ledger.global "valid_orders" =
      groupSum (runOps initialState
        [Op.createCmd 1 "2512010105" "一" "2025-12-01",
         Op.endCmd 1 "2025-12-01"]).ledger "valid_orders") :=
  ⟨sysInv_initialState,
   c1_global_valid_equals_group_sum initialState
     [Op.createCmd 1 "2512010105" "一" "2025-12-01", Op.endCmd 1 "2025-12-01"]
     sysInv_initialState⟩

/-! ## Claim C4 -/

/-- C4: a title carrying a valid order code with digit layout
`YYMMDDSSAA` — bare ten digits, or the marker `A` plus ten digits —
decodes to amount `AA * 1000` and date `2000+YY`-`MM`-`DD` (marker kept
in the order id, `SS` ignored); when `YYMMDD` is not a real calendar
date the decode returns `none` instead of raising. -/
theorem c4_decode_spec (x1 x2 x3 x4 x5 x6 x7 x8 x9 x10 : Char)
    (rest : List Char)
    (h1 : x1.isDigit = true) (h2 : x2.isDigit = true) (h3 : x3.isDigit = true)
    (h4 : x4.isDigit = true) (h5 : x5.isDigit = true) (h6 : x6.isDigit = true)
    (h7 : x7.isDigit = true) (h8 : x8.isDigit = true) (h9 : x9.isDigit = true)
    (h10 : x10.isDigit = true) :
    (validDate (2000 + (10 * digitVal x1 + digitVal x2))
        (10 * digitVal x3 + digitVal x4) (10 * digitVal x5 + digitVal x6) = true →
      parse_order_from_title
          ⟨x1 :: x2 :: x3 :: x4 :: x5 :: x6 :: x7 :: x8 :: x9 :: x10 :: rest⟩ =
        some { date := ⟨2000 + (10 * digitVal x1 + digitVal x2),
                        10 * digitVal x3 + digitVal x4,
                        10 * digitVal x5 + digitVal x6⟩,
               amount := ((10 * digitVal x9 + digitVal x10) * 1000 : ℚ),
               order_id := ⟨[x1, x2, x3, x4, x5, x6, x7, x8, x9, x10]⟩,
               customer := 'B' } ∧
      parse_order_from_title
          ⟨'A' :: x1 :: x2 :: x3 :: x4 :: x5 :: x6 :: x7 :: x8 :: x9 :: x10 :: rest⟩ =
        some { date := ⟨2000 + (10 * digitVal x1 + digitVal x2),
                        10 * digitVal x3 + digitVal x4,
                        10 * digitVal x5 + digitVal x6⟩,
               amount := ((10 * digitVal x9 + digitVal x10) * 1000 : ℚ),
               order_id := ⟨'A' :: [x1, x2, x3, x4, x5, x6, x7, x8, x9, x10]⟩,
               customer := 'A' }) ∧
    (validDate (2000 + (10 * digitVal x1 + digitVal x2))
        (10 * digitVal x3 + digitVal x4) (10 * digitVal x5 + digitVal x6) = false →
      parse_order_from_title
          ⟨x1 :: x2 :: x3 :: x4 :: x5 :: x6 :: x7 :: x8 :: x9 :: x10 :: rest⟩ = none ∧
      parse_order_from_title
          ⟨'A' :: x1 :: x2 :: x3 :: x4 :: x5 :: x6 :: x7 :: x8 :: x9 :: x10 :: rest⟩ = none) := by
  have hA : x1 ≠ 'A' := by
    intro hEq
    rw [hEq] at h1
    exact absurd h1 (by decide)
  have hdig : (x1.isDigit && x2.isDigit && x3.isDigit && x4.isDigit &&
      x5.isDigit && x6.isDigit && x7.isDigit && x8.isDigit && x9.isDigit &&
      x10.isDigit) = true := by
    rw [h1, h2, h3, h4, h5, h6, h7, h8, h9, h10]
    rfl
  constructor
  · intro hv
    constructor
    · unfold parse_order_from_title
      dsimp only
      rw [if_neg hA]
      unfold parse10
      dsimp only
      rw [if_pos hdig]
      unfold parse_digits
      dsimp only
      rw [if_pos hv]
      push_cast
      rfl
    · unfold parse_order_from_title
      dsimp only
      rw [if_pos rfl]
      unfold parse10
      dsimp only
      rw [if_pos hdig]
      unfold parse_digits
      dsimp only
      rw [if_pos hv]
      push_cast
      rfl
  · intro hv
    have hv2 : ¬ (validDate (2000 + (10 * digitVal x1 + digitVal x2))
        (10 * digitVal x3 + digitVal x4) (10 * digitVal x5 + digitVal x6) = true) := by
      rw [hv]
      decide
    constructor
    · unfold parse_order_from_title
      dsimp only
      rw [if_neg hA]
      unfold parse10
      dsimp only
      rw [if_pos hdig]
      unfold parse_digits
      dsimp only
      rw [if_neg hv2]
    · unfold parse_order_from_title
      dsimp only
      rw [if_pos rfl]
      unfold parse10
      dsimp only
      rw [if_pos hdig]
      unfold parse_digits
      dsimp only
      rw [if_neg hv2]

/-- Witness for C4: the code `2512010105` (and `A2512010105`) decodes
to 2025-12-01 with amount 05 × 1000, and the month-13 code `2513010105`
decodes to `none`. -/
theorem c4_witness :
    (parse_order_from_title ⟨['2', '5', '1', '2', '0', '1', '0', '1', '0', '5']⟩ =
      some { date := ⟨2000 + (10 * digitVal '2' + digitVal '5'),
                      10 * digitVal '1' + digitVal '2',
                      10 * digitVal '0' + digitVal '1'⟩,
             amount := ((10 * digitVal '0' + digitVal '5') * 1000 : ℚ),
             order_id := ⟨['2', '5', '1', '2', '0', '1', '0', '1', '0', '5']⟩,
             customer := 'B' } ∧
     parse_order_from_title ⟨'A' :: ['2', '5', '1', '2', '0', '1', '0', '1', '0', '5']⟩ =
      some { date := ⟨2000 + (10 * digitVal '2' + digitVal '5'),
                      10 * digitVal '1' + digitVal '2',
                      10 * digitVal '0' + digitVal '1'⟩,
             amount := ((10 * digitVal '0' + digitVal '5') * 1000 : ℚ),
             order_id := ⟨'A' :: ['2', '5', '1', '2', '0', '1', '0', '1', '0', '5']⟩,
             customer := 'A' }) ∧
    (parse_order_from_title ⟨['2', '5', '1', '3', '0', '1', '0', '1', '0', '5']⟩ = none ∧
     parse_order_from_title ⟨'A' :: ['2', '5', '1', '3', '0', '1', '0', '1', '0', '5']⟩ = none) :=
  ⟨(c4_decode_spec '2' '5' '1' '2' '0' '1' '0' '1' '0' '5' []
      (by decide) (by decide) (by decide) (by decide) (by decide) (by decide)
      (by decide) (by decide) (by decide) (by decide)).1 (by decide),
   (c4_decode_spec '2' '5' '1' '3' '0' '1' '0' '1' '0' '5' []
      (by decide) (by decide) (by decide) (by decide) (by decide) (by decide)
      (by decide) (by decide) (by decide) (by decide)).2 (by decide)⟩

/-! ## Claim C2 -/

/-- C2: for an active order in state normal or overdue and a reduction
`0 < a ≤ order.amount`, the principal reduction succeeds, sets the
order amount to `order.amount - a`, lowers the global `valid_amount` by
`a` with no change to `valid_orders`, raises `completed_amount` by `a`
with no change to `completed_orders`, and credits `liquid_funds` by
`a`; it rejects with the invalid-amount error when `a ≤ 0` or
`a > order.amount` and with the illegal-state error when the order is
in any other state, mutating nothing in either rejection case. -/
theorem c2_principal_reduction_spec (st : SysState) (c : Int) (d : String)
    (a : ℚ) (order : Order)
    (hf : get_order_by_chat_id st.orders c = some order) :
    ((order.state = OrderState.normal ∨ order.state = OrderState.overdue) →
      ((0 < a → a ≤ order.amount →
        (process_principal_reduction st c d a).1 = Res.ok ∧
        (process_principal_reduction st c d a).2.orders =
          st.orders.map (fun o =>
            if activeFor c o then { o with amount := order.amount - a } else o) ∧
        (process_principal_reduction st c d a).2.ledger.global "valid_amount" =
          st.ledger.global "valid_amount" - a ∧
        (process_principal_reduction st c d a).2.ledger.global "valid_orders" =
          st.ledger.global "valid_orders" ∧
        (process_principal_reduction st c d a).2.ledger.global "completed_amount" =
          st.ledger.global "completed_amount" + a ∧
        (process_principal_reduction st c d a).2.ledger.global "completed_orders" =
          st.ledger.global "completed_orders" ∧
        (process_principal_reduction st c d a).2.ledger.global "liquid_funds" =
          st.ledger.global "liquid_funds" + a) ∧
       (a ≤ 0 ∨ order.amount < a →
        process_principal_reduction st c d a = (Res.errInvalidAmount, st)))) ∧
    (¬ (order.state = OrderState.normal ∨ order.state = OrderState.overdue) →
      process_principal_reduction st c d a = (Res.errWrongState, st)) := by
  constructor
  · intro hs
    constructor
    · intro hpos hle
      have hA : ¬ a ≤ 0 := not_le.mpr hpos
      have hB : ¬ order.amount < a := not_lt.mpr hle
      have hu : ¬ ((update_order_amount st.orders c (order.amount - a)).2 = false) := by
        have h2 : (update_order_amount st.orders c (order.amount - a)).2 = true :=
          get_order_any st.orders c order hf
        simp [h2]
      unfold process_principal_reduction
      rw [hf]
      dsimp only
      rw [if_neg (not_not_intro hs), if_neg hA, if_neg hB, if_neg hu]
      refine ⟨rfl, rfl, ?_, ?_, ?_, ?_, ?_⟩
      · rw [update_liquid_capital_global_apply, if_neg (by decide),
          update_all_stats_global_apply, update_all_stats_global_apply]
        simp [financialColumns]
        ring
      · rw [update_liquid_capital_global_apply, if_neg (by decide),
          update_all_stats_global_apply, update_all_stats_global_apply]
        simp [financialColumns]
      · rw [update_liquid_capital_global_apply, if_neg (by decide),
          update_all_stats_global_apply, update_all_stats_global_apply]
        simp [financialColumns]
      · rw [update_liquid_capital_global_apply, if_neg (by decide),
          update_all_stats_global_apply, update_all_stats_global_apply]
        simp [financialColumns]
      · rw [update_liquid_capital_global_apply, if_pos rfl,
          update_all_stats_global_apply, update_all_stats_global_apply]
        simp [financialColumns]
    · intro hbad
      unfold process_principal_reduction
      rw [hf]
      dsimp only
      rw [if_neg (not_not_intro hs)]
      by_cases hA : a ≤ 0
      · rw [if_pos hA]
      · rcases hbad with h1 | h2
        · exact absurd h1 hA
        · rw [if_neg hA, if_pos h2]
  · intro hs
    unfold process_principal_reduction
    rw [hf]
    dsimp only
    rw [if_pos hs]

/-- Witness for C2: reducing the sample normal order of amount 5000 by
2000 succeeds with the stated ledger deltas, and a follow-up reduction
by 4000 exceeds the remaining 3000 and is rejected. -/
theorem c2_witness :
    ((process_principal_reduction (stWith OrderState.normal) 1 "2025-12-01" 2000).1 = Res.ok ∧
     (process_principal_reduction (stWith OrderState.normal) 1 "2025-12-01" 2000).2.orders =
       (stWith OrderState.normal).orders.map (fun o =>
         if activeFor 1 o then { o with amount := (sampleOrder OrderState.normal).amount - 2000 } else o) ∧
     (process_principal_reduction (stWith OrderState.normal) 1 "2025-12-01" 2000).2.ledger.global "valid_amount" =
       (stWith OrderState.normal).ledger.global "valid_amount" - 2000 ∧
     (process_principal_reduction (stWith OrderState.normal) 1 "2025-12-01" 2000).2.ledger.global "valid_orders" =
       (stWith OrderState.normal).ledger.global "valid_orders" ∧
     (process_principal_reduction (stWith OrderState.normal) 1 "2025-12-01" 2000).2.ledger.global "completed_amount" =
       (stWith OrderState.normal).ledger.global "completed_amount" + 2000 ∧
     (process_principal_reduction (stWith OrderState.normal) 1 "2025-12-01" 2000).2.ledger.global "completed_orders" =
       (stWith OrderState.normal).ledger.global "completed_orders" ∧
     (process_principal_reduction (stWith OrderState.normal) 1 "2025-12-01" 2000).2.ledger.global "liquid_funds" =
       (stWith OrderState.normal).ledger.global "liquid_funds" + 2000) ∧
    process_principal_reduction
        { orders := [{ sampleOrder OrderState.normal with amount := 3000 }],
          ledger := initLedger } 1 "2025-12-01" 4000 =
      (Res.errInvalidAmount,
        { orders := [{ sampleOrder OrderState.normal with amount := 3000 }],
          ledger := initLedger }) ∧
    process_principal_reduction (stWith OrderState.breach) 1 "2025-12-01" 2000 =
      (Res.errWrongState, stWith OrderState.breach) := by
  refine ⟨?_, ?_, ?_⟩
  · exact ((c2_principal_reduction_spec (stWith OrderState.normal) 1 "2025-12-01" 2000
      (sampleOrder OrderState.normal) rfl).1 (Or.inl rfl)).1 (by norm_num)
      (by norm_num [sampleOrder])
  · exact ((c2_principal_reduction_spec
      { orders := [{ sampleOrder OrderState.normal with amount := 3000 }],
        ledger := initLedger } 1 "2025-12-01" 4000
      { sampleOrder OrderState.normal with amount := 3000 } rfl).1
      (Or.inl rfl)).2 (Or.inr (by norm_num [sampleOrder]))
  · exact (c2_principal_reduction_spec (stWith OrderState.breach) 1 "2025-12-01" 2000
      (sampleOrder OrderState.breach) rfl).2 (by decide)

/-! ## Claim C3 -/

/-- C3 counterexample: completing the sample normal order of amount
5000 succeeds, but the group-scope `liquid_funds` stays 0 — it is not
credited by the order amount as the claim (read at both scopes)
requires; only the global `liquid_funds` moves. -/
theorem c3_counterexample :
    (set_end (stWith OrderState.normal) 1 "2025-12-01").1 = Res.ok ∧
    (stWith OrderState.normal).ledger.group "S01" "liquid_funds" = 0 ∧
    (set_end (stWith OrderState.normal) 1 "2025-12-01").2.ledger.group "S01" "liquid_funds" = 0 ∧
    (set_end (stWith OrderState.normal) 1 "2025-12-01").2.ledger.group "S01" "liquid_funds" ≠
      (stWith OrderState.normal).ledger.group "S01" "liquid_funds" +
        (sampleOrder OrderState.normal).amount := by
  have hf : get_order_by_chat_id (stWith OrderState.normal).orders 1 =
      some (sampleOrder OrderState.normal) := rfl
  have hg : (sampleOrder OrderState.normal).group_id ≠ "" := by decide
  have hval : (set_end (stWith OrderState.normal) 1 "2025-12-01").2.ledger.group
      "S01" "liquid_funds" = 0 := by
    unfold set_end
    rw [hf]
    dsimp only
    rw [if_neg (by decide)]
    dsimp only
    rw [update_liquid_capital_group,
      update_all_stats_group_apply _ _ _ _ _ _ hg,
      update_all_stats_group_apply _ _ _ _ _ _ hg]
    simp [groupedColumns_eq, financialColumns, sampleOrder]
    rfl
  refine ⟨?_, rfl, hval, ?_⟩
  · unfold set_end
    rw [hf]
    dsimp only
    rw [if_neg (by decide)]
  · rw [hval]
    show (0 : ℚ) ≠ 0 + 5000
    norm_num

/-- C3 (amended): completing an active normal or overdue order of
amount `A` in group `G` sets its state to `END`, and at both Global and
Group scope decreases `valid_orders` by 1 and `valid_amount` by `A` and
increases `completed_orders` by 1 and `completed_amount` by `A`; the
`liquid_funds` credit of `A` happens at Global scope only — the group's
`liquid_funds` value is left unchanged. -/
theorem c3_end_transition_amended (st : SysState) (c : Int) (d : String)
    (order : Order) (hf : get_order_by_chat_id st.orders c = some order)
    (hs : order.state = OrderState.normal ∨ order.state = OrderState.overdue)
    (hg : order.group_id ≠ "") :
    (set_end st c d).1 = Res.ok ∧
    (set_end st c d).2.orders = st.orders.map (fun o =>
      if activeFor c o then { o with state := OrderState.end_ } else o) ∧
    (set_end st c d).2.ledger.global "valid_amount" =
      st.ledger.global "valid_amount" - order.amount ∧
    (set_end st c d).2.ledger.global "valid_orders" =
      st.ledger.global "valid_orders" - 1 ∧
    (set_end st c d).2.ledger.global "completed_amount" =
      st.ledger.global "completed_amount" + order.amount ∧
    (set_end st c d).2.ledger.global "completed_orders" =
      st.ledger.global "completed_orders" + 1 ∧
    (set_end st c d).2.ledger.global "liquid_funds" =
      st.ledger.global "liquid_funds" + order.amount ∧
    (set_end st c d).2.ledger.group order.group_id "valid_amount" =
      st.ledger.group order.group_id "valid_amount" - order.amount ∧
    (set_end st c d).2.ledger.group order.group_id "valid_orders" =
      st.ledger.group order.group_id "valid_orders" - 1 ∧
    (set_end st c d).2.ledger.group order.group_id "completed_amount" =
      st.ledger.group order.group_id "completed_amount" + order.amount ∧
    (set_end st c d).2.ledger.group order.group_id "completed_orders" =
      st.ledger.group order.group_id "completed_orders" + 1 ∧
    (set_end st c d).2.ledger.group order.group_id "liquid_funds" =
      st.ledger.group order.group_id "liquid_funds" := by
  have hcond : ¬ (order.state ≠ OrderState.normal ∧ order.state ≠ OrderState.overdue) :=
    fun hcc => hs.elim hcc.1 hcc.2
  unfold set_end
  rw [hf]
  dsimp only
  rw [if_neg hcond]
  refine ⟨rfl, rfl, ?_, ?_, ?_, ?_, ?_, ?_, ?_, ?_, ?_, ?_⟩ <;>
    (try (rw [update_liquid_capital_global_apply, if_neg (by decide),
      update_all_stats_global_apply, update_all_stats_global_apply]
          simp [financialColumns]
          try ring)) <;>
    (try (rw [update_liquid_capital_global_apply, if_pos rfl,
      update_all_stats_global_apply, update_all_stats_global_apply]
          simp [financialColumns])) <;>
    (try (rw [update_liquid_capital_group,
      update_all_stats_group_apply _ _ _ _ _ _ hg,
      update_all_stats_group_apply _ _ _ _ _ _ hg]
          simp [groupedColumns_eq, financialColumns]
          try ring))

/-- Witness for C3 at the sample normal order of amount 5000. -/
theorem c3_witness :
    (set_end (stWith OrderState.overdue) 1 "2025-12-01").1 = Res.ok ∧
    (set_end (stWith OrderState.overdue) 1 "2025-12-01").2.ledger.global "completed_amount" =
      (stWith OrderState.overdue).ledger.global "completed_amount" +
        (sampleOrder OrderState.overdue).amount ∧
    (set_end (stWith OrderState.overdue) 1 "2025-12-01").2.ledger.group "S01" "valid_orders" =
      (stWith OrderState.overdue).ledger.group "S01" "valid_orders" - 1 ∧
    (set_end (stWith OrderState.overdue) 1 "2025-12-01").2.ledger.group "S01" "liquid_funds" =
      (stWith OrderState.overdue).ledger.group "S01" "liquid_funds" := by
  have H := c3_end_transition_amended (stWith OrderState.overdue) 1 "2025-12-01"
    (sampleOrder OrderState.overdue) rfl (Or.inr rfl) (by decide)
  exact ⟨H.1, H.2.2.2.2.1, H.2.2.2.2.2.2.2.2.1, H.2.2.2.2.2.2.2.2.2.2.2⟩

/-! ## Claim C6 -/

/-- C6 counterexample: settling the sample breach order of amount 5000
with settlement 2000 succeeds and terminates the order, but the order's
`amount` stays 5000 — it is not reduced by the settlement as the claim
requires (it would have to become 3000). -/
theorem c6_counterexample :
    (set_breach_end (stWith OrderState.breach) 1 "2025-12-01" 2000).1 = Res.ok ∧
    (set_breach_end (stWith OrderState.breach) 1 "2025-12-01" 2000).2.orders =
      [{ sampleOrder OrderState.breach with state := OrderState.breach_end }] ∧
    ({ sampleOrder OrderState.breach with state := OrderState.breach_end } : Order).amount = 5000 ∧
    ({ sampleOrder OrderState.breach with state := OrderState.breach_end } : Order).amount ≠
      (sampleOrder OrderState.breach).amount - 2000 := by
  have hf : get_order_by_chat_id (stWith OrderState.breach).orders 1 =
      some (sampleOrder OrderState.breach) := rfl
  refine ⟨?_, ?_, rfl, ?_⟩
  · unfold set_breach_end
    rw [hf]
    dsimp only
    rw [if_neg (by decide), if_neg (by norm_num)]
  · unfold set_breach_end
    rw [hf]
    dsimp only
    rw [if_neg (by decide), if_neg (by norm_num)]
    rfl
  · show (5000 : ℚ) ≠ 5000 - 2000
    norm_num

/-- C6 (amended): for an active breach order and a positive settlement
amount `S`, the transition to `BREACH_END` succeeds, sets the state to
`BREACH_END`, increases `breach_end_amount` by `S` and
`breach_end_orders` by 1 at Global and Group scope, and credits
`liquid_funds` by `S`; the order's remaining `amount` is left unchanged
(a partial settlement is not subtracted from the principal). -/
theorem c6_breach_end_amended (st : SysState) (c : Int) (d : String) (S : ℚ)
    (order : Order) (hf : get_order_by_chat_id st.orders c = some order)
    (hs : order.state = OrderState.breach) (hpos : 0 < S)
    (hg : order.group_id ≠ "") :
    (set_breach_end st c d S).1 = Res.ok ∧
    (set_breach_end st c d S).2.orders = st.orders.map (fun o =>
      if activeFor c o then { o with state := OrderState.breach_end } else o) ∧
    (set_breach_end st c d S).2.orders.map Order.amount =
      st.orders.map Order.amount ∧
    (set_breach_end st c d S).2.ledger.global "breach_end_amount" =
      st.ledger.global "breach_end_amount" + S ∧
    (set_breach_end st c d S).2.ledger.global "breach_end_orders" =
      st.ledger.global "breach_end_orders" + 1 ∧
    (set_breach_end st c d S).2.ledger.global "liquid_funds" =
      st.ledger.global "liquid_funds" + S ∧
    (set_breach_end st c d S).2.ledger.group order.group_id "breach_end_amount" =
      st.ledger.group order.group_id "breach_end_amount" + S ∧
    (set_breach_end st c d S).2.ledger.group order.group_id "breach_end_orders" =
      st.ledger.group order.group_id "breach_end_orders" + 1 := by
  unfold set_breach_end
  rw [hf]
  dsimp only
  rw [if_neg (not_not_intro hs), if_neg (not_le.mpr hpos)]
  refine ⟨rfl, rfl, ?_, ?_, ?_, ?_, ?_, ?_⟩
  · show ((st.orders.map fun o =>
        if activeFor c o then { o with state := OrderState.breach_end } else o).map
          Order.amount) = st.orders.map Order.amount
    rw [List.map_map]
    apply List.map_congr_left
    intro o _
    cases hA : activeFor c o <;> simp [hA]
  · rw [update_liquid_capital_global_apply, if_neg (by decide),
      update_all_stats_global_apply]
    simp [financialColumns]
  · rw [update_liquid_capital_global_apply, if_neg (by decide),
      update_all_stats_global_apply]
    simp [financialColumns]
  · rw [update_liquid_capital_global_apply, if_pos rfl,
      update_all_stats_global_apply]
    simp [financialColumns]
  · rw [update_liquid_capital_group, update_all_stats_group_apply _ _ _ _ _ _ hg]
    simp [groupedColumns_eq, financialColumns]
  · rw [update_liquid_capital_group, update_all_stats_group_apply _ _ _ _ _ _ hg]
    simp [groupedColumns_eq, financialColumns]

/-- Witness for C6 at the sample breach order with settlement 2000. -/
theorem c6_witness :
    (set_breach_end (stWith OrderState.breach) 1 "2025-12-01" 2000).1 = Res.ok ∧
    (set_breach_end (stWith OrderState.breach) 1 "2025-12-01" 2000).2.orders.map Order.amount =
      (stWith OrderState.breach).orders.map Order.amount ∧
    (set_breach_end (stWith OrderState.breach) 1 "2025-12-01" 2000).2.ledger.global "breach_end_amount" =
      (stWith OrderState.breach).ledger.global "breach_end_amount" + 2000 ∧
    (set_breach_end (stWith OrderState.breach) 1 "2025-12-01" 2000).2.ledger.global "liquid_funds" =
      (stWith OrderState.breach).ledger.global "liquid_funds" + 2000 := by
  have H := c6_breach_end_amended (stWith OrderState.breach) 1 "2025-12-01" 2000
    (sampleOrder OrderState.breach) rfl rfl (by norm_num) (by decide)
  exact ⟨H.1, H.2.2.1, H.2.2.2.1, H.2.2.2.2.2.1⟩

/-! ## Claim C7 -/

/-- C7 counterexample: requesting the BREACH transition through the
`/breach` command on the sample NORMAL order does not succeed — it is
rejected with the wrong-state error ("Order must be overdue"), the
state is returned unchanged and `breach_amount` does not move by the
order amount as the claim requires. -/
theorem c7_counterexample :
    set_breach (stWith OrderState.normal) 1 "2025-12-01" =
      (Res.errWrongState, stWith OrderState.normal) ∧
    (set_breach (stWith OrderState.normal) 1 "2025-12-01").1 ≠ Res.ok ∧
    (set_breach (stWith OrderState.normal) 1 "2025-12-01").2.ledger.global "breach_amount" ≠
      (stWith OrderState.normal).ledger.global "breach_amount" +
        (sampleOrder OrderState.normal).amount := by
  have hf : get_order_by_chat_id (stWith OrderState.normal).orders 1 =
      some (sampleOrder OrderState.normal) := rfl
  have h1 : set_breach (stWith OrderState.normal) 1 "2025-12-01" =
      (Res.errWrongState, stWith OrderState.normal) := by
    unfold set_breach
    rw [hf]
    dsimp only
    rw [if_pos (by decide)]
  refine ⟨h1, ?_, ?_⟩
  · rw [h1]
    decide
  · rw [h1]
    show (0 : ℚ) ≠ 0 + 5000
    norm_num

/-- C7 (amended): the `/breach` command transitions only an OVERDUE
order to BREACH (a NORMAL order is rejected with the wrong-state error
and nothing is mutated); the title-driven automatic update transitions
both NORMAL and OVERDUE orders to BREACH.  In every successful case the
ledger effect is as claimed: at Global and Group scope, `valid_amount`
decreases by the order amount and `valid_orders` by 1, while
`breach_amount` increases by the amount and `breach_orders` by 1. -/
theorem c7_breach_transition_amended (st : SysState) (c : Int)
    (d title : String) (order : Order)
    (hf : get_order_by_chat_id st.orders c = some order)
    (hg : order.group_id ≠ "") :
    (order.state = OrderState.overdue →
      (set_breach st c d).1 = Res.ok ∧
      (set_breach st c d).2.orders = st.orders.map (fun o =>
        if activeFor c o then { o with state := OrderState.breach } else o) ∧
      (set_breach st c d).2.ledger.global "valid_amount" =
        st.ledger.global "valid_amount" - order.amount ∧
      (set_breach st c d).2.ledger.global "valid_orders" =
        st.ledger.global "valid_orders" - 1 ∧
      (set_breach st c d).2.ledger.global "breach_amount" =
        st.ledger.global "breach_amount" + order.amount ∧
      (set_breach st c d).2.ledger.global "breach_orders" =
        st.ledger.global "breach_orders" + 1 ∧
      (set_breach st c d).2.ledger.group order.group_id "valid_amount" =
        st.ledger.group order.group_id "valid_amount" - order.amount ∧
      (set_breach st c d).2.ledger.group order.group_id "valid_orders" =
        st.ledger.group order.group_id "valid_orders" - 1 ∧
      (set_breach st c d).2.ledger.group order.group_id "breach_amount" =
        st.ledger.group order.group_id "breach_amount" + order.amount ∧
      (set_breach st c d).2.ledger.group order.group_id "breach_orders" =
        st.ledger.group order.group_id "breach_orders" + 1) ∧
    (order.state = OrderState.normal →
      set_breach st c d = (Res.errWrongState, st)) ∧
    ((order.state = OrderState.normal ∨ order.state = OrderState.overdue) →
      get_state_from_title title = OrderState.breach →
      (update_order_state_from_title st c title d).orders = st.orders.map (fun o =>
        if activeFor c o then { o with state := OrderState.breach } else o) ∧
      (update_order_state_from_title st c title d).ledger.global "valid_amount" =
        st.ledger.global "valid_amount" - order.amount ∧
      (update_order_state_from_title st c title d).ledger.global "valid_orders" =
        st.ledger.global "valid_orders" - 1 ∧
      (update_order_state_from_title st c title d).ledger.global "breach_amount" =
        st.ledger.global "breach_amount" + order.amount ∧
      (update_order_state_from_title st c title d).ledger.global "breach_orders" =
        st.ledger.global "breach_orders" + 1 ∧
      (update_order_state_from_title st c title d).ledger.group order.group_id "valid_amount" =
        st.ledger.group order.group_id "valid_amount" - order.amount ∧
      (update_order_state_from_title st c title d).ledger.group order.group_id "valid_orders" =
        st.ledger.group order.group_id "valid_orders" - 1 ∧
      (update_order_state_from_title st c title d).ledger.group order.group_id "breach_amount" =
        st.ledger.group order.group_id "breach_amount" + order.amount ∧
      (update_order_state_from_title st c title d).ledger.group order.group_id "breach_orders" =
        st.ledger.group order.group_id "breach_orders" + 1) := by
  refine ⟨?_, ?_, ?_⟩
  · intro hs
    unfold set_breach
    rw [hf]
    dsimp only
    rw [if_neg (not_not_intro hs)]
    refine ⟨rfl, rfl, ?_, ?_, ?_, ?_, ?_, ?_, ?_, ?_⟩ <;>
      (try (rw [update_all_stats_global_apply, update_all_stats_global_apply]
            simp [financialColumns]
            try ring)) <;>
      (try (rw [update_all_stats_group_apply _ _ _ _ _ _ hg,
        update_all_stats_group_apply _ _ _ _ _ _ hg]
            simp [groupedColumns_eq, financialColumns]
            try ring))
  · intro hs
    unfold set_breach
    rw [hf]
    dsimp only
    rw [if_pos (by rw [hs]; decide)]
  · intro hs htitle
    have h1 : ¬ (order.state = OrderState.end_ ∨ order.state = OrderState.breach_end) := by
      rcases hs with h | h <;> rw [h] <;> decide
    have h2 : ¬ (order.state = get_state_from_title title) := by
      rw [htitle]
      rcases hs with h | h <;> rw [h] <;> decide
    have hany : (update_order_state st.orders c (get_state_from_title title)).2 = true :=
      get_order_any st.orders c order hf
    unfold update_order_state_from_title
    rw [hf]
    dsimp only
    rw [if_neg h1, if_neg h2, if_pos hany, if_pos ⟨hs, htitle⟩, htitle]
    refine ⟨rfl, ?_, ?_, ?_, ?_, ?_, ?_, ?_, ?_⟩ <;>
      (try (rw [update_all_stats_global_apply, update_all_stats_global_apply]
            simp [financialColumns]
            try ring)) <;>
      (try (rw [update_all_stats_group_apply _ _ _ _ _ _ hg,
        update_all_stats_group_apply _ _ _ _ _ _ hg]
            simp [groupedColumns_eq, financialColumns]
            try ring))

/-- Witness for C7: the sample overdue order transitions to BREACH via
the command (group counts moving with it), the sample normal order is
rejected by the command, and the title-driven update moves a normal
order to BREACH. -/
theorem c7_witness :
    ((set_breach (stWith OrderState.overdue) 1 "2025-12-01").1 = Res.ok ∧
     (set_breach (stWith OrderState.overdue) 1 "2025-12-01").2.ledger.global "breach_amount" =
       (stWith OrderState.overdue).ledger.global "breach_amount" +
         (sampleOrder OrderState.overdue).amount ∧
     (set_breach (stWith OrderState.overdue) 1 "2025-12-01").2.ledger.group "S01" "valid_orders" =
       (stWith OrderState.overdue).ledger.group "S01" "valid_orders" - 1 ∧
     (set_breach (stWith OrderState.overdue) 1 "2025-12-01").2.ledger.group "S01" "breach_orders" =
       (stWith OrderState.overdue).ledger.group "S01" "breach_orders" + 1) ∧
    set_breach (stWith OrderState.normal) 1 "2025-12-01" =
      (Res.errWrongState, stWith OrderState.normal) ∧
    (update_order_state_from_title (stWith OrderState.normal) 1 "2512010105 ❌" "2025-12-01").ledger.global "breach_amount" =
      (stWith OrderState.normal).ledger.global "breach_amount" +
        (sampleOrder OrderState.normal).amount ∧
    (update_order_state_from_title (stWith OrderState.normal) 1 "2512010105 ❌" "2025-12-01").ledger.group "S01" "breach_orders" =
      (stWith OrderState.normal).ledger.group "S01" "breach_orders" + 1 := by
  have H1 := c7_breach_transition_amended (stWith OrderState.overdue) 1 "2025-12-01"
    "2512010105 ❌" (sampleOrder OrderState.overdue) rfl (by decide)
  have H2 := c7_breach_transition_amended (stWith OrderState.normal) 1 "2025-12-01"
    "2512010105 ❌" (sampleOrder OrderState.normal) rfl (by decide)
  exact ⟨⟨(H1.1 rfl).1, (H1.1 rfl).2.2.2.2.1,
      (H1.1 rfl).2.2.2.2.2.2.2.1,
      (H1.1 rfl).2.2.2.2.2.2.2.2.2⟩,
    H2.2.1 rfl,
    (H2.2.2 (Or.inl rfl) rfl).2.2.2.1,
    (H2.2.2 (Or.inl rfl) rfl).2.2.2.2.2.2.2.2⟩

/-! ## Claim C8 -/

/-- C8: creating an order whose encoded date precedes the cutover date
2025-11-25 is a historical import: creation succeeds with no balance
check (no hypothesis relates `liquid_funds` to the amount), the order
row is inserted, and only the stock fields move — for a non-breach
title `valid_amount` rises by the amount and `valid_orders` by 1 (for a
breach title the `breach` pair instead), while every other global field
(in particular `liquid_funds`) and the daily `liquid_flow` value are
left unchanged. -/
theorem c8_historical_import (st : SysState) (c : Int)
    (title w d : String) (manual : Bool) (info : ParsedOrder)
    (hp : parse_order_from_title title = some info)
    (hno : get_order_by_chat_id st.orders c = none)
    (hhist : dateLt info.date threshold_date = true)
    (hdup : st.orders.any (fun o => o.order_id == info.order_id) = false) :
    (try_create_order_from_title st c title w d manual).1 = Res.ok ∧
    (try_create_order_from_title st c title w d manual).2.orders =
      st.orders ++
        [{ order_id := info.order_id, group_id := "S01", chat_id := c,
           date := info.date, weekday_group := w, customer := info.customer,
           amount := info.amount, state := get_state_from_title title }] ∧
    (get_state_from_title title ≠ OrderState.breach →
      (try_create_order_from_title st c title w d manual).2.ledger.global "valid_amount" =
        st.ledger.global "valid_amount" + info.amount ∧
      (try_create_order_from_title st c title w d manual).2.ledger.global "valid_orders" =
        st.ledger.global "valid_orders" + 1 ∧
      (∀ F, F ≠ "valid_amount" → F ≠ "valid_orders" →
        (try_create_order_from_title st c title w d manual).2.ledger.global F =
          st.ledger.global F)) ∧
    (get_state_from_title title = OrderState.breach →
      (try_create_order_from_title st c title w d manual).2.ledger.global "breach_amount" =
        st.ledger.global "breach_amount" + info.amount ∧
      (try_create_order_from_title st c title w d manual).2.ledger.global "breach_orders" =
        st.ledger.global "breach_orders" + 1 ∧
      (∀ F, F ≠ "breach_amount" → F ≠ "breach_orders" →
        (try_create_order_from_title st c title w d manual).2.ledger.global F =
          st.ledger.global F)) ∧
    (try_create_order_from_title st c title w d manual).2.ledger.daily d none "liquid_flow" =
      st.ledger.daily d none "liquid_flow" := by
  have hbal : ¬ (dateLt info.date threshold_date = false ∧
      st.ledger.global "liquid_funds" < info.amount) := by
    intro hcc
    rw [hhist] at hcc
    exact absurd hcc.1 (by decide)
  have hdup2 : ¬ (st.orders.any (fun o => o.order_id == info.order_id) = true) := by
    intro hEq
    rw [hdup] at hEq
    exact absurd hEq (by decide)
  have hh2 : ¬ (dateLt info.date threshold_date = false) := by
    rw [hhist]
    decide
  unfold try_create_order_from_title
  rw [hp]
  dsimp only
  rw [hno]
  dsimp only
  rw [if_neg hbal, if_neg hdup2, if_neg hh2]
  refine ⟨rfl, rfl, ?_, ?_, ?_⟩
  · intro hbr
    rw [if_neg hbr]
    refine ⟨?_, ?_, ?_⟩
    · rw [update_all_stats_global_apply]
      simp [financialColumns]
    · rw [update_all_stats_global_apply]
      simp [financialColumns]
    · intro F hF1 hF2
      rw [update_all_stats_global_apply]
      simp [financialColumns, hF1, hF2]
  · intro hbr
    rw [if_pos hbr]
    refine ⟨?_, ?_, ?_⟩
    · rw [update_all_stats_global_apply]
      simp [financialColumns]
    · rw [update_all_stats_global_apply]
      simp [financialColumns]
    · intro F hF1 hF2
      rw [update_all_stats_global_apply]
      simp [financialColumns, hF1, hF2]
  · by_cases hbr : get_state_from_title title = OrderState.breach
    · rw [if_pos hbr, update_all_stats_daily_none_apply]
      simp [dailyColumns]
    · rw [if_neg hbr,
        update_all_stats_daily_not_allowed st.ledger d "valid" info.amount 1
          (some "S01") rfl]

/-- The decoded info of the pre-cutover code `2401150105`
(2024-01-15, sequence 01, amount 05 x 1000), taken definitionally from
the decoder so the witness needs no rational normalization. -/
def histInfo : ParsedOrder :=
  (parse_order_from_title "2401150105").getD ⟨⟨0, 0, 0⟩, 0, "", 'B'⟩

/-- Witness for C8: importing the pre-cutover code `2401150105`
(2024-01-15, amount 5000) into an empty system whose liquid funds are
zero — the creation succeeds even though the balance could not fund it,
`valid_amount` rises by the order amount and `liquid_funds` stays
unchanged. -/
theorem c8_witness :
    (try_create_order_from_title
        { orders := [], ledger := { initLedger with global := fun _ => 0 } }
        1 "2401150105" "一" "2025-12-01" true).1 = Res.ok ∧
    (try_create_order_from_title
        { orders := [], ledger := { initLedger with global := fun _ => 0 } }
        1 "2401150105" "一" "2025-12-01" true).2.ledger.global "valid_amount" =
      ({ orders := [], ledger := { initLedger with global := fun _ => 0 } } : SysState).ledger.global "valid_amount" +
        histInfo.amount ∧
    (try_create_order_from_title
        { orders := [], ledger := { initLedger with global := fun _ => 0 } }
        1 "2401150105" "一" "2025-12-01" true).2.ledger.global "liquid_funds" =
      ({ orders := [], ledger := { initLedger with global := fun _ => 0 } } : SysState).ledger.global "liquid_funds" := by
  have H := c8_historical_import
    { orders := [], ledger := { initLedger with global := fun _ => 0 } }
    1 "2401150105" "一" "2025-12-01" true histInfo
    rfl rfl (by decide) rfl
  have H3 := H.2.2.1 (by decide)
  exact ⟨H.1, H3.1, H3.2.2 "liquid_funds" (by decide) (by decide)⟩

/-! ## Claim C9 -/

/-- C9: a direct `END` request on a breach order is rejected with the
wrong-state error and performs no ledger or order mutation (the whole
state is returned unchanged); repeating the same request yields the
same rejection with everything still unchanged. -/
theorem c9_breach_to_end_rejected (st : SysState) (c : Int) (d : String)
    (order : Order) (hf : get_order_by_chat_id st.orders c = some order)
    (hs : order.state = OrderState.breach) :
    set_end st c d = (Res.errWrongState, st) ∧
    set_end (set_end st c d).2 c d = (Res.errWrongState, st) := by
  have hcond : order.state ≠ OrderState.normal ∧ order.state ≠ OrderState.overdue := by
    rw [hs]
    exact ⟨by decide, by decide⟩
  have h1 : set_end st c d = (Res.errWrongState, st) := by
    unfold set_end
    rw [hf]
    dsimp only
    rw [if_pos hcond]
  refine ⟨h1, ?_⟩
  rw [h1]
  exact h1

/-- Witness for C9 at a concrete breach order of amount 5000. -/
theorem c9_witness :
    set_end (stWith OrderState.breach) 1 "2025-12-01" =
      (Res.errWrongState, stWith OrderState.breach) ∧
    set_end (set_end (stWith OrderState.breach) 1 "2025-12-01").2 1 "2025-12-01" =
      (Res.errWrongState, stWith OrderState.breach) :=
  c9_breach_to_end_rejected (stWith OrderState.breach) 1 "2025-12-01"
    (sampleOrder OrderState.breach) rfl rfl

/-! ## Claim C10 -/

/-- C10: recording an interest event in a chat with no active order
increases the global `interest` counter and the global daily
(`group_id = null`) `interest` counter by the amount and credits
`liquid_funds`, while the set of group rows, every group-row value and
every per-group daily row are left entirely unchanged — the `interest`
field is thus exempt from the global-equals-sum-of-groups
relationship. -/
theorem c10_interest_no_order_frame (st : SysState) (d : String) (a : ℚ) :
    (handle_interest_no_order st d a).ledger.global "interest" =
      st.ledger.global "interest" + a ∧
    (handle_interest_no_order st d a).ledger.daily d none "interest" =
      st.ledger.daily d none "interest" + a ∧
    (handle_interest_no_order st d a).ledger.global "liquid_funds" =
      st.ledger.global "liquid_funds" + a ∧
    (handle_interest_no_order st d a).ledger.groups = st.ledger.groups ∧
    (handle_interest_no_order st d a).ledger.group = st.ledger.group ∧
    (∀ D G F, (handle_interest_no_order st d a).ledger.daily D (some G) F =
      st.ledger.daily D (some G) F) ∧
    (handle_interest_no_order st d a).orders = st.orders := by
  unfold handle_interest_no_order
  dsimp only
  refine ⟨?_, ?_, ?_, ?_, ?_, ?_, rfl⟩
  · rw [update_liquid_capital_global_apply, if_neg (by decide),
      update_all_stats_global_apply]
    simp [financialColumns]
  · rw [update_liquid_capital_daily, update_all_stats_none_daily_none_apply]
    simp [dailyColumns]
  · rw [update_liquid_capital_global_apply, if_pos rfl,
      update_all_stats_global_apply]
    simp [financialColumns]
  · rw [update_liquid_capital_groups, update_all_stats_none_groups]
  · rw [update_liquid_capital_group, update_all_stats_none_group]
  · intro D G F
    rw [update_liquid_capital_daily, update_all_stats_none_daily_group_row]

/-! ## Claim C5 -/

/-- C5 (code bug): the daily ledger is written only for event names on
the allow-list of prefixes, and `valid` / `liquid_funds` events never
touch any daily row; but the claimed companion write of `liquid_flow`
into the daily table by `update_liquid_capital` is silently lost,
because `daily_data` has no `liquid_flow` column — on a cash movement
of 2000 the global `liquid_funds` moves to 102000 while the daily
`liquid_flow` value stays 0. -/
theorem c5_daily_routing_and_liquid_flow_bug :
    isDailyField "valid" = false ∧
    isDailyField "liquid_funds" = false ∧
    (update_all_stats initLedger "2025-12-01" "valid" 5000 1 (some "S01")).daily =
      initLedger.daily ∧
    (update_all_stats initLedger "2025-12-01" "liquid_funds" 2000 0 (some "S01")).daily =
      initLedger.daily ∧
    dailyColumns.contains "liquid_flow" = false ∧
    (update_liquid_capital initLedger "2025-12-01" 2000).global "liquid_funds" = 102000 ∧
    (update_liquid_capital initLedger "2025-12-01" 2000).daily "2025-12-01" none "liquid_flow" = 0 := by
  refine ⟨rfl, rfl, ?_, ?_, by decide, ?_, ?_⟩
  · exact update_all_stats_daily_not_allowed _ _ _ _ _ _ rfl
  · exact update_all_stats_daily_not_allowed _ _ _ _ _ _ rfl
  · rw [update_liquid_capital_global_apply, if_pos rfl]
    show (100000 : ℚ) + 2000 = 102000
    norm_num
  · rw [update_liquid_capital_daily]
    rfl

end LoanBot
